import Mathlib

/-!
# Device-uniform dispatch layer of gtn (`gtn/functions.cpp`)

A shallow embedding of the dispatch layer: the three dispatch macros
(`DISPATCH1`, `DISPATCH2`, `DISPATCHV`), the two `deviceCheck` overloads and
the public operations generated from them.

* C++ exceptions and the two undefined behaviours the file could exhibit
  (`graphs[0]` on an empty vector, a read of the uninitialised local `device`)
  are values of `Exn`.
* Every function returns an `Outcome`: the result (`Except Exn _`) together
  with the trace of observable events it performed, in order (entering the
  N-argument `deviceCheck`, calling `Graph::device()`, invoking a backend
  function).  The trace is instrumentation only; the C++ layer is stateless.
* The `cpu::` and `cuda::` namespaces are parameters (`Backend`), their
  functions may throw.
-/

namespace gtn

/-- Modelled from the spec: the `Graph` handle class is declared outside
`functions.cpp`.  The layer only inspects `isCuda()` and `device()`; `handle`
stands for the rest of the graph value. -/
structure Graph where
  isCuda : Bool
  device : Int
  handle : Nat
deriving DecidableEq, Repr

/-- Modelled from the spec: the `Projection` enumeration (NONE, INPUT, OUTPUT)
is declared outside `functions.cpp`. -/
inductive Projection where
  | NONE
  | INPUT
  | OUTPUT
deriving DecidableEq, Repr

/-- What a call can end with instead of a value: a C++ exception
(`std::invalid_argument`, or anything else a backend throws), or one of the two
undefined behaviours made explicit by the total embedding. -/
inductive Exn where
  | invalid_argument (what : String)
  | backendFailure (what : String)
  | indexOutOfRange
  | uninitialisedRead
deriving DecidableEq, Repr

/-- The two backend namespaces, `cpu::` and `cuda::`. -/
inductive Namespace where
  | cpu
  | cuda
deriving DecidableEq, Repr

/-- The non-graph arguments forwarded to a backend function. -/
inductive Extra where
  | none
  | projection (p : Projection)
  | labels (ilabel olabel : Int)
deriving DecidableEq, Repr

/-- Observable events of one call into the layer. -/
inductive Event where
  | deviceCheck (graphs : List Graph) (name : String)
  | deviceRead (g : Graph)
  | backendCall (ns : Namespace) (fn : String) (graphs : List Graph) (extra : Extra)
deriving DecidableEq, Repr

/-- Result of running a piece of the layer: its value or exception, and the
events it performed, oldest first. -/
structure Outcome (α : Type) where
  result : Except Exn α
  trace : List Event

/-- Return normally without any event. -/
def Outcome.ret {α : Type} (a : α) : Outcome α := ⟨.ok a, []⟩

/-- Sequencing: an exception in the first part skips the second part and keeps
the events performed so far. -/
def Outcome.seq {α β : Type} (x : Outcome α) (f : α → Outcome β) : Outcome β :=
  match x.result with
  | .error e => ⟨.error e, x.trace⟩
  | .ok a => ⟨(f a).result, x.trace ++ (f a).trace⟩

instance : Monad Outcome where
  pure := Outcome.ret
  bind := Outcome.seq

/-- Record one event. -/
def emit (e : Event) : Outcome Unit := ⟨.ok (), [e]⟩

/-- The C++ `throw`. -/
def raise {α : Type} (e : Exn) : Outcome α := ⟨.error e, []⟩

/-- The unchecked access `graphs[0]`; out of range on the empty vector. -/
def at0 (graphs : List Graph) : Outcome Graph :=
  match graphs with
  | [] => raise .indexOutOfRange
  | g :: _ => pure g

/-- The accessor call `g.device()`. -/
def readDevice (g : Graph) : Outcome Int := ⟨.ok g.device, [.deviceRead g]⟩

/-- A read of the local `int device;`, which holds a value only once assigned. -/
def readLocal (device : Option Int) : Outcome Int :=
  match device with
  | none => raise .uninitialisedRead
  | some d => pure d

/-- A call `ns::fn(graphs..., extra...)` whose (possibly throwing) result is `r`. -/
def invoke (ns : Namespace) (fn : String) (graphs : List Graph) (extra : Extra)
    (r : Except Exn Graph) : Outcome Graph :=
  ⟨r, [.backendCall ns fn graphs extra]⟩

/-- The exception thrown by `deviceCheck`. -/
def deviceMismatch (name : String) : Exn :=
  .invalid_argument ("[" ++ name ++ "] Graphs must be on the same device")

/-- The condition of the `if` in the loop of `deviceCheck`:
`g.isCuda() != isCuda || (isCuda && g.device() != device)`, with the
short-circuit evaluation of `||` and `&&`. -/
def loopCond (isCuda : Bool) (device : Option Int) (g : Graph) : Outcome Bool :=
  if g.isCuda != isCuda then pure true
  else if isCuda then do
    let gd ← readDevice g
    let d ← readLocal device
    pure (gd != d)
  else pure false

/-- The range-for loop of `deviceCheck` over the elements still to visit. -/
def deviceCheckLoop (isCuda : Bool) (device : Option Int) (name : String) :
    List Graph → Outcome Unit
  | [] => pure ()
  | g :: rest => do
    let bad ← loopCond isCuda device g
    if bad then raise (deviceMismatch name)
    else deviceCheckLoop isCuda device name rest

/-- The N-argument `deviceCheck(const std::vector<Graph>&, const std::string&)`. -/
def deviceCheck (graphs : List Graph) (name : String) : Outcome Unit := do
  emit (.deviceCheck graphs name)
  let g0 ← at0 graphs
  let isCuda := g0.isCuda
  let device ← (if isCuda then do
      let d ← readDevice g0
      pure (some d)
    else pure none)
  deviceCheckLoop isCuda device name graphs

/-- The two-argument `deviceCheck(const Graph&, const Graph&, const std::string&)`. -/
def deviceCheck2 (g1 g2 : Graph) (name : String) : Outcome Unit :=
  deviceCheck [g1, g2] name

/-- The macro `DISPATCH1(fn)`; `fn` is the stringified name, `cpuFn` and
`cudaFn` are `cpu::fn` and `cuda::fn`. -/
def DISPATCH1 (fn : String) (cpuFn cudaFn : Graph → Except Exn Graph) (g : Graph) :
    Outcome Graph :=
  if g.isCuda then invoke .cuda fn [g] .none (cudaFn g)
  else invoke .cpu fn [g] .none (cpuFn g)

/-- The macro `DISPATCH2(fn)`. -/
def DISPATCH2 (fn : String) (cpuFn cudaFn : Graph → Graph → Except Exn Graph)
    (g1 g2 : Graph) : Outcome Graph := do
  deviceCheck2 g1 g2 fn
  if g1.isCuda then invoke .cuda fn [g1, g2] .none (cudaFn g1 g2)
  else invoke .cpu fn [g1, g2] .none (cpuFn g1 g2)

/-- The macro `DISPATCHV(fn)`. -/
def DISPATCHV (fn : String) (cpuFn cudaFn : List Graph → Except Exn Graph)
    (graphs : List Graph) : Outcome Graph :=
  if graphs.isEmpty then invoke .cpu fn graphs .none (cpuFn graphs)
  else do
    deviceCheck graphs fn
    let g0 ← at0 graphs
    if g0.isCuda then invoke .cuda fn graphs .none (cudaFn graphs)
    else invoke .cpu fn graphs .none (cpuFn graphs)

/-- Modelled from the spec: the functions of one backend namespace
(`gtn/cpu/functions.h`, `gtn/cuda/functions.h`), one per catalogued operation
with the signature of the public operation; each may throw. -/
structure Backend where
  negate : Graph → Except Exn Graph
  add : Graph → Graph → Except Exn Graph
  subtract : Graph → Graph → Except Exn Graph
  clone : Graph → Projection → Except Exn Graph
  concat : List Graph → Except Exn Graph
  closure : Graph → Except Exn Graph
  union_ : List Graph → Except Exn Graph
  intersect : Graph → Graph → Except Exn Graph
  compose : Graph → Graph → Except Exn Graph
  remove : Graph → Int → Int → Except Exn Graph
  forwardScore : Graph → Except Exn Graph
  viterbiScore : Graph → Except Exn Graph
  viterbiPath : Graph → Except Exn Graph

/-- The operation `negate`, generated by `DISPATCH1(negate)`. -/
def negate (cpu cuda : Backend) : Graph → Outcome Graph :=
  DISPATCH1 "negate" cpu.negate cuda.negate

/-- The operation `add`, generated by `DISPATCH2(add)`. -/
def add (cpu cuda : Backend) : Graph → Graph → Outcome Graph :=
  DISPATCH2 "add" cpu.add cuda.add

/-- The operation `subtract`, generated by `DISPATCH2(subtract)`. -/
def subtract (cpu cuda : Backend) : Graph → Graph → Outcome Graph :=
  DISPATCH2 "subtract" cpu.subtract cuda.subtract

/-- The operation `clone(g, projection)`. -/
def clone (cpu cuda : Backend) (g : Graph) (projection : Projection) : Outcome Graph :=
  if g.isCuda then invoke .cuda "clone" [g] (.projection projection) (cuda.clone g projection)
  else invoke .cpu "clone" [g] (.projection projection) (cpu.clone g projection)

/-- The operation `projectInput`. -/
def projectInput (cpu cuda : Backend) (g : Graph) : Outcome Graph :=
  clone cpu cuda g Projection.INPUT

/-- The operation `projectOutput`. -/
def projectOutput (cpu cuda : Backend) (g : Graph) : Outcome Graph :=
  clone cpu cuda g Projection.OUTPUT

/-- The variadic `concat(const std::vector<Graph>&)`, generated by
`DISPATCHV(concat)`. -/
def concat (cpu cuda : Backend) : List Graph → Outcome Graph :=
  DISPATCHV "concat" cpu.concat cuda.concat

/-- The binary overload `concat(const Graph&, const Graph&)`. -/
def concat2 (cpu cuda : Backend) (g1 g2 : Graph) : Outcome Graph :=
  concat cpu cuda [g1, g2]

/-- The operation `closure`, generated by `DISPATCH1(closure)`. -/
def closure (cpu cuda : Backend) : Graph → Outcome Graph :=
  DISPATCH1 "closure" cpu.closure cuda.closure

/-- The operation `union_`, generated by `DISPATCHV(union_)`. -/
def union_ (cpu cuda : Backend) : List Graph → Outcome Graph :=
  DISPATCHV "union_" cpu.union_ cuda.union_

/-- The operation `intersect`, generated by `DISPATCH2(intersect)`. -/
def intersect (cpu cuda : Backend) : Graph → Graph → Outcome Graph :=
  DISPATCH2 "intersect" cpu.intersect cuda.intersect

/-- The operation `compose`, generated by `DISPATCH2(compose)`. -/
def compose (cpu cuda : Backend) : Graph → Graph → Outcome Graph :=
  DISPATCH2 "compose" cpu.compose cuda.compose

/-- The operation `remove(const Graph&, int, int)`. -/
def remove (cpu cuda : Backend) (g : Graph) (ilabel olabel : Int) : Outcome Graph :=
  if g.isCuda then invoke .cuda "remove" [g] (.labels ilabel olabel) (cuda.remove g ilabel olabel)
  else invoke .cpu "remove" [g] (.labels ilabel olabel) (cpu.remove g ilabel olabel)

/-- The single-label overload `remove(const Graph&, int)`. -/
def remove1 (cpu cuda : Backend) (g : Graph) (label : Int) : Outcome Graph :=
  remove cpu cuda g label label

/-- The operation `forwardScore`, generated by `DISPATCH1(forwardScore)`. -/
def forwardScore (cpu cuda : Backend) : Graph → Outcome Graph :=
  DISPATCH1 "forwardScore" cpu.forwardScore cuda.forwardScore

/-- The operation `viterbiScore`, generated by `DISPATCH1(viterbiScore)`. -/
def viterbiScore (cpu cuda : Backend) : Graph → Outcome Graph :=
  DISPATCH1 "viterbiScore" cpu.viterbiScore cuda.viterbiScore

/-- The operation `viterbiPath`, generated by `DISPATCH1(viterbiPath)`. -/
def viterbiPath (cpu cuda : Backend) : Graph → Outcome Graph :=
  DISPATCH1 "viterbiPath" cpu.viterbiPath cuda.viterbiPath

/-! ## Vocabulary of the properties -/

/-- Is the event a backend invocation? -/
def Event.isBackendCall : Event → Bool
  | .backendCall _ _ _ _ => true
  | _ => false

/-- Is the event an entry into the N-argument `deviceCheck`? -/
def Event.isDeviceCheck : Event → Bool
  | .deviceCheck _ _ => true
  | _ => false

/-- The backend invocations recorded in a trace, in order. -/
def backendCalls (tr : List Event) : List Event := tr.filter Event.isBackendCall

/-- The runs of the device check recorded in a trace, in order. -/
def deviceChecks (tr : List Event) : List Event := tr.filter Event.isDeviceCheck

/-- The call raised the layer's own device-mismatch error for operation `name`:
it ended with that `std::invalid_argument` and no backend function was invoked. -/
def raisesDeviceMismatch {α : Type} (name : String) (o : Outcome α) : Prop :=
  o.result = .error (deviceMismatch name) ∧ backendCalls o.trace = []

/-- Graph `g` differs from the reference placement, the first disjunct or the
second of the loop condition of `deviceCheck`. -/
def differsFrom (ref g : Graph) : Prop :=
  g.isCuda ≠ ref.isCuda ∨ (ref.isCuda = true ∧ g.device ≠ ref.device)

/-- Two graphs are on different devices: they disagree on residency, or are both
CUDA-resident with different device ids. -/
def onDifferentDevices (a b : Graph) : Prop :=
  a.isCuda ≠ b.isCuda ∨ (a.isCuda = true ∧ b.isCuda = true ∧ a.device ≠ b.device)

instance (ref g : Graph) : Decidable (differsFrom ref g) := by
  unfold differsFrom; infer_instance

instance (a b : Graph) : Decidable (onDifferentDevices a b) := by
  unfold onDifferentDevices; infer_instance

/-- The device homogeneity invariant at the backend invocations of one call with
argument graphs `args`: every recorded backend invocation receives exactly
`args`; a `cuda::` invocation receives only CUDA-resident graphs, all with the
same device id; a `cpu::` invocation receives only host-resident graphs. -/
def homogeneousCalls (args : List Graph) (o : Outcome Graph) : Prop :=
  ∀ ns fn gs extra, Event.backendCall ns fn gs extra ∈ o.trace →
    gs = args ∧
    (ns = .cuda → ∀ a ∈ gs, a.isCuda = true ∧ ∀ b ∈ gs, a.device = b.device) ∧
    (ns = .cpu → ∀ a ∈ gs, a.isCuda = false)

/-- A test double of a backend namespace: every function succeeds and returns a
host graph whose handle is `tag`. -/
def stubBackend (tag : Nat) : Backend where
  negate _ := .ok ⟨false, 0, tag⟩
  add _ _ := .ok ⟨false, 0, tag⟩
  subtract _ _ := .ok ⟨false, 0, tag⟩
  clone _ _ := .ok ⟨false, 0, tag⟩
  concat _ := .ok ⟨false, 0, tag⟩
  closure _ := .ok ⟨false, 0, tag⟩
  union_ _ := .ok ⟨false, 0, tag⟩
  intersect _ _ := .ok ⟨false, 0, tag⟩
  compose _ _ := .ok ⟨false, 0, tag⟩
  remove _ _ _ := .ok ⟨false, 0, tag⟩
  forwardScore _ := .ok ⟨false, 0, tag⟩
  viterbiScore _ := .ok ⟨false, 0, tag⟩
  viterbiPath _ := .ok ⟨false, 0, tag⟩

/-- A test double of a backend namespace in which every function throws
`what`. -/
def failingBackend (what : String) : Backend where
  negate _ := .error (.backendFailure what)
  add _ _ := .error (.backendFailure what)
  subtract _ _ := .error (.backendFailure what)
  clone _ _ := .error (.backendFailure what)
  concat _ := .error (.backendFailure what)
  closure _ := .error (.backendFailure what)
  union_ _ := .error (.backendFailure what)
  intersect _ _ := .error (.backendFailure what)
  compose _ _ := .error (.backendFailure what)
  remove _ _ _ := .error (.backendFailure what)
  forwardScore _ := .error (.backendFailure what)
  viterbiScore _ := .error (.backendFailure what)
  viterbiPath _ := .error (.backendFailure what)

/-- One call of a public operation of the layer, with its arguments: the
functions `functions.cpp` defines in namespace `gtn`, `deviceCheck` apart. -/
inductive Request where
  | negate (g : Graph)
  | add (g1 g2 : Graph)
  | subtract (g1 g2 : Graph)
  | clone (g : Graph) (projection : Projection)
  | projectInput (g : Graph)
  | projectOutput (g : Graph)
  | concat2 (g1 g2 : Graph)
  | concat (graphs : List Graph)
  | closure (g : Graph)
  | union_ (graphs : List Graph)
  | intersect (g1 g2 : Graph)
  | compose (g1 g2 : Graph)
  | remove1 (g : Graph) (label : Int)
  | remove (g : Graph) (ilabel olabel : Int)
  | forwardScore (g : Graph)
  | viterbiScore (g : Graph)
  | viterbiPath (g : Graph)

/-- Run the requested public operation. -/
def Request.run (cpu cuda : Backend) : Request → Outcome Graph
  | .negate g => gtn.negate cpu cuda g
  | .add g1 g2 => gtn.add cpu cuda g1 g2
  | .subtract g1 g2 => gtn.subtract cpu cuda g1 g2
  | .clone g p => gtn.clone cpu cuda g p
  | .projectInput g => gtn.projectInput cpu cuda g
  | .projectOutput g => gtn.projectOutput cpu cuda g
  | .concat2 g1 g2 => gtn.concat2 cpu cuda g1 g2
  | .concat graphs => gtn.concat cpu cuda graphs
  | .closure g => gtn.closure cpu cuda g
  | .union_ graphs => gtn.union_ cpu cuda graphs
  | .intersect g1 g2 => gtn.intersect cpu cuda g1 g2
  | .compose g1 g2 => gtn.compose cpu cuda g1 g2
  | .remove1 g label => gtn.remove1 cpu cuda g label
  | .remove g ilabel olabel => gtn.remove cpu cuda g ilabel olabel
  | .forwardScore g => gtn.forwardScore cpu cuda g
  | .viterbiScore g => gtn.viterbiScore cpu cuda g
  | .viterbiPath g => gtn.viterbiPath cpu cuda g

/-- The graphs a request passes, in order. -/
def Request.graphs : Request → List Graph
  | .negate g => [g]
  | .add g1 g2 => [g1, g2]
  | .subtract g1 g2 => [g1, g2]
  | .clone g _ => [g]
  | .projectInput g => [g]
  | .projectOutput g => [g]
  | .concat2 g1 g2 => [g1, g2]
  | .concat graphs => graphs
  | .closure g => [g]
  | .union_ graphs => graphs
  | .intersect g1 g2 => [g1, g2]
  | .compose g1 g2 => [g1, g2]
  | .remove1 g _ => [g]
  | .remove g _ _ => [g]
  | .forwardScore g => [g]
  | .viterbiScore g => [g]
  | .viterbiPath g => [g]

/-- The name of the backend function a request is forwarded to, which is also
the operation name the device check (if any) reports. -/
def Request.name : Request → String
  | .negate _ => "negate"
  | .add _ _ => "add"
  | .subtract _ _ => "subtract"
  | .clone _ _ => "clone"
  | .projectInput _ => "clone"
  | .projectOutput _ => "clone"
  | .concat2 _ _ => "concat"
  | .concat _ => "concat"
  | .closure _ => "closure"
  | .union_ _ => "union_"
  | .intersect _ _ => "intersect"
  | .compose _ _ => "compose"
  | .remove1 _ _ => "remove"
  | .remove _ _ _ => "remove"
  | .forwardScore _ => "forwardScore"
  | .viterbiScore _ => "viterbiScore"
  | .viterbiPath _ => "viterbiPath"

/-- The function of backend `b` a request is forwarded to, applied to the
request's arguments. -/
def Request.backendResult (b : Backend) : Request → Except Exn Graph
  | .negate g => b.negate g
  | .add g1 g2 => b.add g1 g2
  | .subtract g1 g2 => b.subtract g1 g2
  | .clone g p => b.clone g p
  | .projectInput g => b.clone g Projection.INPUT
  | .projectOutput g => b.clone g Projection.OUTPUT
  | .concat2 g1 g2 => b.concat [g1, g2]
  | .concat graphs => b.concat graphs
  | .closure g => b.closure g
  | .union_ graphs => b.union_ graphs
  | .intersect g1 g2 => b.intersect g1 g2
  | .compose g1 g2 => b.compose g1 g2
  | .remove1 g label => b.remove g label label
  | .remove g ilabel olabel => b.remove g ilabel olabel
  | .forwardScore g => b.forwardScore g
  | .viterbiScore g => b.viterbiScore g
  | .viterbiPath g => b.viterbiPath g

/-- The namespace selected for a request: `cuda::` when the first graph is
CUDA-resident, `cpu::` otherwise, also when there is no graph. -/
def Request.selectedNamespace (r : Request) : Namespace :=
  match r.graphs with
  | [] => .cpu
  | g :: _ => if g.isCuda then .cuda else .cpu

/-- What the selected backend function returns or throws for a request. -/
def Request.selected (cpu cuda : Backend) (r : Request) : Except Exn Graph :=
  match r.selectedNamespace with
  | .cpu => r.backendResult cpu
  | .cuda => r.backendResult cuda

/-! ## The device check -/

theorem Outcome.bind_eq {α β : Type} (x : Outcome α) (f : α → Outcome β) :
    (x >>= f) = Outcome.seq x f := rfl

theorem Outcome.pure_eq {α : Type} (a : α) : (pure a : Outcome α) = Outcome.ret a := rfl

/-- The loop condition, evaluated with `device` assigned exactly when `isCuda`. -/
theorem loopCond_eq (b : Bool) (d : Int) (g : Graph) :
    loopCond b (if b then some d else none) g =
      ⟨.ok (decide (g.isCuda ≠ b ∨ (b = true ∧ g.device ≠ d))),
        if g.isCuda = true ∧ b = true then [.deviceRead g] else []⟩ := by
  cases hb : b <;> cases hg : g.isCuda <;> by_cases hd : g.device = d <;>
    simp [loopCond, hg, hd, Outcome.bind_eq, Outcome.pure_eq, Outcome.seq, Outcome.ret,
      readDevice, readLocal]

theorem loop_result (b : Bool) (d : Int) (name : String) (gs : List Graph) :
    (deviceCheckLoop b (if b then some d else none) name gs).result =
      if ∃ g ∈ gs, g.isCuda ≠ b ∨ (b = true ∧ g.device ≠ d) then .error (deviceMismatch name)
      else .ok () := by
  induction gs with
  | nil => simp [deviceCheckLoop, Outcome.pure_eq, Outcome.ret]
  | cons g rest ih =>
    rw [deviceCheckLoop, Outcome.bind_eq, loopCond_eq]
    by_cases h : g.isCuda ≠ b ∨ (b = true ∧ g.device ≠ d)
    · simp [Outcome.seq, h, raise]
    · simp only [Outcome.seq, h, decide_False, Bool.false_eq_true, if_false, ih]
      simp [h]

theorem loop_trace (b : Bool) (d : Int) (name : String) (gs : List Graph) :
    ∀ e ∈ (deviceCheckLoop b (if b then some d else none) name gs).trace,
      ∃ g ∈ gs, e = .deviceRead g ∧ g.isCuda = true := by
  induction gs with
  | nil => simp [deviceCheckLoop, Outcome.pure_eq, Outcome.ret]
  | cons g rest ih =>
    rw [deviceCheckLoop, Outcome.bind_eq, loopCond_eq]
    intro e he
    by_cases h : g.isCuda ≠ b ∨ (b = true ∧ g.device ≠ d)
    · simp only [Outcome.seq, h, decide_True, if_true, raise, List.append_nil] at he
      split at he
      · rename_i hc
        simp only [List.mem_singleton] at he
        exact ⟨g, List.mem_cons_self _ _, he, hc.1⟩
      · simp at he
    · simp only [Outcome.seq, h, decide_False, Bool.false_eq_true, if_false,
        List.mem_append] at he
      rcases he with he | he
      · split at he
        · rename_i hc
          simp only [List.mem_singleton] at he
          exact ⟨g, List.mem_cons_self _ _, he, hc.1⟩
        · simp at he
      · obtain ⟨g', hg', h1, h2⟩ := ih e he
        exact ⟨g', List.mem_cons_of_mem _ hg', h1, h2⟩

theorem deviceCheck_result (g0 : Graph) (rest : List Graph) (name : String) :
    (deviceCheck (g0 :: rest) name).result =
      if ∃ g ∈ g0 :: rest, differsFrom g0 g then .error (deviceMismatch name) else .ok () := by
  have h := loop_result g0.isCuda g0.device name (g0 :: rest)
  cases hb : g0.isCuda <;> rw [hb] at h <;>
    simp only [deviceCheck, at0, emit, readDevice, Outcome.bind_eq, Outcome.pure_eq,
      Outcome.seq, Outcome.ret, hb, if_true, if_false, Bool.false_eq_true] at h ⊢ <;>
    simp [h, differsFrom, hb]

theorem deviceCheck_trace (g0 : Graph) (rest : List Graph) (name : String) :
    ∃ reads, (deviceCheck (g0 :: rest) name).trace = .deviceCheck (g0 :: rest) name :: reads ∧
      ∀ e ∈ reads, ∃ g ∈ g0 :: rest, e = .deviceRead g ∧ g.isCuda = true := by
  have h := loop_trace g0.isCuda g0.device name (g0 :: rest)
  cases hb : g0.isCuda <;> rw [hb] at h
  · refine ⟨_, ?_, h⟩
    simp [deviceCheck, at0, emit, readDevice, Outcome.bind_eq, Outcome.pure_eq,
      Outcome.seq, Outcome.ret, hb]
  · simp only [if_true] at h
    refine ⟨.deviceRead g0 :: (deviceCheckLoop true (some g0.device) name (g0 :: rest)).trace,
      ?_, ?_⟩
    · simp only [deviceCheck, at0, emit, readDevice, Outcome.bind_eq, Outcome.pure_eq,
        Outcome.seq, Outcome.ret, hb, if_true, List.nil_append, List.singleton_append,
        List.cons_append, List.append_nil]
    · intro e he
      rcases List.mem_cons.1 he with he | he
      · exact ⟨g0, List.mem_cons_self _ _, he, hb⟩
      · exact h e he

theorem deviceCheck_backendCalls (g0 : Graph) (rest : List Graph) (name : String) :
    backendCalls (deviceCheck (g0 :: rest) name).trace = [] := by
  obtain ⟨reads, h1, h2⟩ := deviceCheck_trace g0 rest name
  rw [h1, backendCalls, List.filter_eq_nil_iff]
  intro e he
  rcases List.mem_cons.1 he with he | he
  · subst he; simp [Event.isBackendCall]
  · obtain ⟨g, -, hg, -⟩ := h2 e he
    subst hg; simp [Event.isBackendCall]

theorem deviceCheck_deviceChecks (g0 : Graph) (rest : List Graph) (name : String) :
    deviceChecks (deviceCheck (g0 :: rest) name).trace = [.deviceCheck (g0 :: rest) name] := by
  obtain ⟨reads, h1, h2⟩ := deviceCheck_trace g0 rest name
  have : reads.filter Event.isDeviceCheck = [] := by
    rw [List.filter_eq_nil_iff]
    intro e he
    obtain ⟨g, -, hg, -⟩ := h2 e he
    subst hg; simp [Event.isDeviceCheck]
  rw [h1, deviceChecks, List.filter_cons]
  simp [Event.isDeviceCheck, this]

/-! ## The dispatch shapes -/

theorem DISPATCHV_cons (fn : String) (cpuFn cudaFn : List Graph → Except Exn Graph)
    (g0 : Graph) (rest : List Graph) :
    DISPATCHV fn cpuFn cudaFn (g0 :: rest) =
      if ∃ g ∈ g0 :: rest, differsFrom g0 g then
        ⟨.error (deviceMismatch fn), (deviceCheck (g0 :: rest) fn).trace⟩
      else
        ⟨if g0.isCuda then cudaFn (g0 :: rest) else cpuFn (g0 :: rest),
          (deviceCheck (g0 :: rest) fn).trace ++
            [.backendCall (if g0.isCuda then .cuda else .cpu) fn (g0 :: rest) .none]⟩ := by
  have hr := deviceCheck_result g0 rest fn
  by_cases h : ∃ g ∈ g0 :: rest, differsFrom g0 g
  · rw [if_pos h] at hr
    rw [if_pos h]
    simp only [DISPATCHV, List.isEmpty_cons, Bool.false_eq_true, if_false, Outcome.bind_eq,
      Outcome.seq, hr]
  · rw [if_neg h] at hr
    rw [if_neg h]
    cases hb : g0.isCuda <;>
      simp [DISPATCHV, Outcome.bind_eq, Outcome.seq, hr, at0, Outcome.pure_eq, Outcome.ret,
        invoke, hb]

theorem DISPATCH2_eq (fn : String) (cpuFn cudaFn : Graph → Graph → Except Exn Graph)
    (g1 g2 : Graph) :
    DISPATCH2 fn cpuFn cudaFn g1 g2 =
      if ∃ g ∈ [g1, g2], differsFrom g1 g then
        ⟨.error (deviceMismatch fn), (deviceCheck [g1, g2] fn).trace⟩
      else
        ⟨if g1.isCuda then cudaFn g1 g2 else cpuFn g1 g2,
          (deviceCheck [g1, g2] fn).trace ++
            [.backendCall (if g1.isCuda then .cuda else .cpu) fn [g1, g2] .none]⟩ := by
  have hr := deviceCheck_result g1 [g2] fn
  by_cases h : ∃ g ∈ [g1, g2], differsFrom g1 g
  · rw [if_pos h] at hr
    rw [if_pos h]
    simp only [DISPATCH2, deviceCheck2, Outcome.bind_eq, Outcome.seq, hr]
  · rw [if_neg h] at hr
    rw [if_neg h]
    cases hb : g1.isCuda <;>
      simp [DISPATCH2, deviceCheck2, Outcome.bind_eq, Outcome.seq, hr, invoke, hb]

/-- Some element differs from the first one exactly when some two elements are
on different devices. -/
theorem differsFrom_head_iff_pair (g0 : Graph) (rest : List Graph) :
    (∃ g ∈ g0 :: rest, differsFrom g0 g) ↔
      ∃ a ∈ g0 :: rest, ∃ b ∈ g0 :: rest, onDifferentDevices a b := by
  constructor
  · rintro ⟨g, hg, h⟩
    refine ⟨g0, List.mem_cons_self _ _, g, hg, ?_⟩
    rcases h with h | ⟨h1, h2⟩
    · exact Or.inl (fun e => h e.symm)
    · by_cases hc : g.isCuda = true
      · exact Or.inr ⟨h1, hc, fun e => h2 e.symm⟩
      · exact Or.inl (fun e => hc (e ▸ h1))
  · rintro ⟨a, ha, b, hb, h⟩
    by_contra hno
    have key : ∀ g ∈ g0 :: rest, g.isCuda = g0.isCuda ∧ (g0.isCuda = true → g.device = g0.device) := by
      intro g hg
      by_contra hc
      apply hno
      refine ⟨g, hg, ?_⟩
      unfold differsFrom
      by_cases h1 : g.isCuda = g0.isCuda
      · right
        by_contra h2
        apply hc
        refine ⟨h1, fun h3 => ?_⟩
        by_contra h4
        exact h2 ⟨h3, h4⟩
      · exact Or.inl h1
    obtain ⟨a1, a2⟩ := key a ha
    obtain ⟨b1, b2⟩ := key b hb
    rcases h with h | ⟨h1, h2, h3⟩
    · exact h (a1.trans b1.symm)
    · have hc : g0.isCuda = true := a1 ▸ h1
      exact h3 ((a2 hc).trans (b2 hc).symm)

theorem backendCalls_check_append (g0 : Graph) (rest : List Graph) (name : String)
    (ns : Namespace) (fn : String) (gs : List Graph) (extra : Extra) :
    backendCalls ((deviceCheck (g0 :: rest) name).trace ++ [.backendCall ns fn gs extra]) =
      [.backendCall ns fn gs extra] := by
  have h := deviceCheck_backendCalls g0 rest name
  unfold backendCalls at h ⊢
  rw [List.filter_append, h]
  simp [Event.isBackendCall]

theorem DISPATCHV_raises_iff (fn : String) (cpuFn cudaFn : List Graph → Except Exn Graph)
    (g0 : Graph) (rest : List Graph) :
    raisesDeviceMismatch fn (DISPATCHV fn cpuFn cudaFn (g0 :: rest)) ↔
      ∃ g ∈ g0 :: rest, differsFrom g0 g := by
  rw [DISPATCHV_cons]
  by_cases h : ∃ g ∈ g0 :: rest, differsFrom g0 g
  · rw [if_pos h]
    simp only [raisesDeviceMismatch, deviceCheck_backendCalls, and_self, h]
  · rw [if_neg h]
    simp only [raisesDeviceMismatch, h, iff_false, not_and]
    intro _
    rw [backendCalls_check_append]
    simp

theorem DISPATCH2_raises_iff (fn : String) (cpuFn cudaFn : Graph → Graph → Except Exn Graph)
    (g1 g2 : Graph) :
    raisesDeviceMismatch fn (DISPATCH2 fn cpuFn cudaFn g1 g2) ↔
      ∃ g ∈ [g1, g2], differsFrom g1 g := by
  rw [DISPATCH2_eq]
  by_cases h : ∃ g ∈ [g1, g2], differsFrom g1 g
  · rw [if_pos h]
    simp only [raisesDeviceMismatch, deviceCheck_backendCalls, and_self, h]
  · rw [if_neg h]
    simp only [raisesDeviceMismatch, h, iff_false, not_and]
    intro _
    rw [backendCalls_check_append]
    simp

/-! ## The claims -/

/-- C1: on a non-empty sequence `g0 :: rest` the N-argument `deviceCheck` ends
with the invalid-argument error exactly when some element's `isCuda` flag
differs from that of `g0`, or `g0` is CUDA-resident and some element's device
id differs from that of `g0`; exactly in the other case it returns normally. -/
theorem C1_deviceCheck_fails_iff (g0 : Graph) (rest : List Graph) (name : String) :
    ((deviceCheck (g0 :: rest) name).result =
        .error (.invalid_argument ("[" ++ name ++ "] Graphs must be on the same device")) ↔
      ((∃ g ∈ g0 :: rest, g.isCuda ≠ g0.isCuda) ∨
        (g0.isCuda = true ∧ ∃ g ∈ g0 :: rest, g.device ≠ g0.device))) ∧
    ((deviceCheck (g0 :: rest) name).result = .ok () ↔
      ¬ ((∃ g ∈ g0 :: rest, g.isCuda ≠ g0.isCuda) ∨
        (g0.isCuda = true ∧ ∃ g ∈ g0 :: rest, g.device ≠ g0.device))) := by
  have hiff : (∃ g ∈ g0 :: rest, differsFrom g0 g) ↔
      ((∃ g ∈ g0 :: rest, g.isCuda ≠ g0.isCuda) ∨
        (g0.isCuda = true ∧ ∃ g ∈ g0 :: rest, g.device ≠ g0.device)) := by
    constructor
    · rintro ⟨g, hg, h | ⟨h1, h2⟩⟩
      · exact Or.inl ⟨g, hg, h⟩
      · exact Or.inr ⟨h1, g, hg, h2⟩
    · rintro (⟨g, hg, h⟩ | ⟨h1, g, hg, h2⟩)
      · exact ⟨g, hg, Or.inl h⟩
      · exact ⟨g, hg, Or.inr ⟨h1, h2⟩⟩
  rw [deviceCheck_result, ← hiff]
  by_cases h : ∃ g ∈ g0 :: rest, differsFrom g0 g
  · rw [if_pos h]
    exact ⟨⟨fun _ => h, fun _ => rfl⟩, ⟨fun e => (by cases e), fun hn => absurd h hn⟩⟩
  · rw [if_neg h]
    exact ⟨⟨fun e => (by cases e), fun hh => absurd hh h⟩, ⟨fun _ => h, fun _ => rfl⟩⟩

/-- C2: each binary-shaped operation, and each variadic operation on a non-empty
sequence, raises the device-mismatch error (ends with that invalid-argument
error, no backend function invoked) exactly when two of its arguments, any
pair, disagree on `isCuda` or are both CUDA-resident with different device
ids. -/
theorem C2_raises_iff_some_pair_differs (cpu cuda : Backend) (g1 g2 : Graph)
    (graphs : List Graph) :
    (raisesDeviceMismatch "add" (add cpu cuda g1 g2) ↔
      ∃ a ∈ [g1, g2], ∃ b ∈ [g1, g2], onDifferentDevices a b) ∧
    (raisesDeviceMismatch "subtract" (subtract cpu cuda g1 g2) ↔
      ∃ a ∈ [g1, g2], ∃ b ∈ [g1, g2], onDifferentDevices a b) ∧
    (raisesDeviceMismatch "intersect" (intersect cpu cuda g1 g2) ↔
      ∃ a ∈ [g1, g2], ∃ b ∈ [g1, g2], onDifferentDevices a b) ∧
    (raisesDeviceMismatch "compose" (compose cpu cuda g1 g2) ↔
      ∃ a ∈ [g1, g2], ∃ b ∈ [g1, g2], onDifferentDevices a b) ∧
    (graphs ≠ [] →
      (raisesDeviceMismatch "concat" (concat cpu cuda graphs) ↔
        ∃ a ∈ graphs, ∃ b ∈ graphs, onDifferentDevices a b) ∧
      (raisesDeviceMismatch "union_" (union_ cpu cuda graphs) ↔
        ∃ a ∈ graphs, ∃ b ∈ graphs, onDifferentDevices a b)) := by
  refine ⟨?_, ?_, ?_, ?_, ?_⟩
  · rw [← differsFrom_head_iff_pair]; exact DISPATCH2_raises_iff _ _ _ _ _
  · rw [← differsFrom_head_iff_pair]; exact DISPATCH2_raises_iff _ _ _ _ _
  · rw [← differsFrom_head_iff_pair]; exact DISPATCH2_raises_iff _ _ _ _ _
  · rw [← differsFrom_head_iff_pair]; exact DISPATCH2_raises_iff _ _ _ _ _
  · intro hne
    cases graphs with
    | nil => exact absurd rfl hne
    | cons g0 rest =>
      constructor
      · rw [← differsFrom_head_iff_pair]; exact DISPATCHV_raises_iff _ _ _ _ _
      · rw [← differsFrom_head_iff_pair]; exact DISPATCHV_raises_iff _ _ _ _ _

/-- C2 at concrete inputs: a host graph with a CUDA graph (mismatch raised by
all six operations), and a mismatch between the second and third element of a
variadic call. -/
theorem C2_raises_iff_some_pair_differs_witness :
    ([⟨true, 0, 0⟩, ⟨true, 0, 1⟩, ⟨true, 1, 2⟩] : List Graph) ≠ [] ∧
    raisesDeviceMismatch "add" (add (stubBackend 7) (stubBackend 8) ⟨false, 0, 0⟩ ⟨true, 0, 1⟩) ∧
    raisesDeviceMismatch "concat"
      (concat (stubBackend 7) (stubBackend 8) [⟨true, 0, 0⟩, ⟨true, 0, 1⟩, ⟨true, 1, 2⟩]) ∧
    raisesDeviceMismatch "union_"
      (union_ (stubBackend 7) (stubBackend 8) [⟨true, 0, 0⟩, ⟨true, 0, 1⟩, ⟨true, 1, 2⟩]) := by
  have h := C2_raises_iff_some_pair_differs (stubBackend 7) (stubBackend 8)
    ⟨false, 0, 0⟩ ⟨true, 0, 1⟩ [⟨true, 0, 0⟩, ⟨true, 0, 1⟩, ⟨true, 1, 2⟩]
  have hne : ([⟨true, 0, 0⟩, ⟨true, 0, 1⟩, ⟨true, 1, 2⟩] : List Graph) ≠ [] := by decide
  refine ⟨hne, h.1.2 (by decide), (h.2.2.2.2 hne).1.2 (by decide), (h.2.2.2.2 hne).2.2 (by decide)⟩

/-- Outcome of a binary-shaped operation whose arguments differ from `g1`. -/
theorem DISPATCH2_mismatch (fn : String) (cpuFn cudaFn : Graph → Graph → Except Exn Graph)
    (g1 g2 : Graph) (h : ∃ g ∈ [g1, g2], differsFrom g1 g) :
    (DISPATCH2 fn cpuFn cudaFn g1 g2).result = .error (deviceMismatch fn) ∧
      backendCalls (DISPATCH2 fn cpuFn cudaFn g1 g2).trace = [] :=
  (DISPATCH2_raises_iff fn cpuFn cudaFn g1 g2).2 h

/-- Outcome of a binary-shaped operation whose arguments pass the check. -/
theorem DISPATCH2_pass (fn : String) (cpuFn cudaFn : Graph → Graph → Except Exn Graph)
    (g1 g2 : Graph) (h : ¬ ∃ g ∈ [g1, g2], differsFrom g1 g) :
    (DISPATCH2 fn cpuFn cudaFn g1 g2).result = (if g1.isCuda then cudaFn g1 g2 else cpuFn g1 g2) ∧
      backendCalls (DISPATCH2 fn cpuFn cudaFn g1 g2).trace =
        [.backendCall (if g1.isCuda then .cuda else .cpu) fn [g1, g2] .none] := by
  rw [DISPATCH2_eq, if_neg h]
  exact ⟨rfl, backendCalls_check_append _ _ _ _ _ _ _⟩

/-- Outcome of a variadic operation on a non-empty sequence that passes the check. -/
theorem DISPATCHV_pass (fn : String) (cpuFn cudaFn : List Graph → Except Exn Graph)
    (g0 : Graph) (rest : List Graph) (h : ¬ ∃ g ∈ g0 :: rest, differsFrom g0 g) :
    (DISPATCHV fn cpuFn cudaFn (g0 :: rest)).result =
        (if g0.isCuda then cudaFn (g0 :: rest) else cpuFn (g0 :: rest)) ∧
      backendCalls (DISPATCHV fn cpuFn cudaFn (g0 :: rest)).trace =
        [.backendCall (if g0.isCuda then .cuda else .cpu) fn (g0 :: rest) .none] := by
  rw [DISPATCHV_cons, if_neg h]
  exact ⟨rfl, backendCalls_check_append _ _ _ _ _ _ _⟩

/-- C3: when the `isCuda` flags of `g1` and `g2` differ, each of `add`,
`subtract`, `intersect` and `compose` ends with the device-mismatch
invalid-argument error naming the operation, and the number of recorded backend
invocations (of `cpu::` and of `cuda::`) is zero. -/
theorem C3_differing_placement_raises_before_backend (cpu cuda : Backend) (g1 g2 : Graph)
    (h : g1.isCuda ≠ g2.isCuda) :
    ((add cpu cuda g1 g2).result =
        .error (.invalid_argument "[add] Graphs must be on the same device") ∧
      (backendCalls (add cpu cuda g1 g2).trace).length = 0) ∧
    ((subtract cpu cuda g1 g2).result =
        .error (.invalid_argument "[subtract] Graphs must be on the same device") ∧
      (backendCalls (subtract cpu cuda g1 g2).trace).length = 0) ∧
    ((intersect cpu cuda g1 g2).result =
        .error (.invalid_argument "[intersect] Graphs must be on the same device") ∧
      (backendCalls (intersect cpu cuda g1 g2).trace).length = 0) ∧
    ((compose cpu cuda g1 g2).result =
        .error (.invalid_argument "[compose] Graphs must be on the same device") ∧
      (backendCalls (compose cpu cuda g1 g2).trace).length = 0) := by
  have hd : ∃ g ∈ [g1, g2], differsFrom g1 g :=
    ⟨g2, by simp, Or.inl (fun e => h e.symm)⟩
  have key : ∀ (fn : String) (cpuFn cudaFn : Graph → Graph → Except Exn Graph),
      (DISPATCH2 fn cpuFn cudaFn g1 g2).result = .error (deviceMismatch fn) ∧
        (backendCalls (DISPATCH2 fn cpuFn cudaFn g1 g2).trace).length = 0 := by
    intro fn cpuFn cudaFn
    obtain ⟨h1, h2⟩ := DISPATCH2_mismatch fn cpuFn cudaFn g1 g2 hd
    exact ⟨h1, by rw [h2]; rfl⟩
  exact ⟨key "add" _ _, key "subtract" _ _, key "intersect" _ _, key "compose" _ _⟩

/-- C3 at a host graph and a CUDA graph, with test-double backends. -/
theorem C3_differing_placement_raises_before_backend_witness :
    (⟨false, 0, 0⟩ : Graph).isCuda ≠ (⟨true, 0, 1⟩ : Graph).isCuda ∧
    (add (stubBackend 7) (stubBackend 8) ⟨false, 0, 0⟩ ⟨true, 0, 1⟩).result =
      .error (.invalid_argument "[add] Graphs must be on the same device") ∧
    (backendCalls (compose (stubBackend 7) (stubBackend 8) ⟨false, 0, 0⟩ ⟨true, 0, 1⟩).trace).length
      = 0 :=
  ⟨by decide,
    (C3_differing_placement_raises_before_backend (stubBackend 7) (stubBackend 8)
      ⟨false, 0, 0⟩ ⟨true, 0, 1⟩ (by decide)).1.1,
    (C3_differing_placement_raises_before_backend (stubBackend 7) (stubBackend 8)
      ⟨false, 0, 0⟩ ⟨true, 0, 1⟩ (by decide)).2.2.2.2⟩

/-- C4: when `g1` and `g2` have equal `isCuda` flags and, if both are
CUDA-resident, equal device ids, `add` and `subtract` do not raise the
device-mismatch error; the result is exactly `cuda::fn(g1, g2)` when `g1` is
CUDA-resident and `cpu::fn(g1, g2)` otherwise, and that call is the only backend
invocation.  Host-resident graphs satisfy the second hypothesis whatever their
device ids are. -/
theorem C4_add_subtract_dispatch (cpu cuda : Backend) (g1 g2 : Graph)
    (hp : g1.isCuda = g2.isCuda)
    (hd : g1.isCuda = true → g2.isCuda = true → g1.device = g2.device) :
    (¬ raisesDeviceMismatch "add" (add cpu cuda g1 g2) ∧
      (add cpu cuda g1 g2).result = (if g1.isCuda then cuda.add g1 g2 else cpu.add g1 g2) ∧
      backendCalls (add cpu cuda g1 g2).trace =
        [.backendCall (if g1.isCuda then .cuda else .cpu) "add" [g1, g2] .none]) ∧
    (¬ raisesDeviceMismatch "subtract" (subtract cpu cuda g1 g2) ∧
      (subtract cpu cuda g1 g2).result =
        (if g1.isCuda then cuda.subtract g1 g2 else cpu.subtract g1 g2) ∧
      backendCalls (subtract cpu cuda g1 g2).trace =
        [.backendCall (if g1.isCuda then .cuda else .cpu) "subtract" [g1, g2] .none]) := by
  have hno : ¬ ∃ g ∈ [g1, g2], differsFrom g1 g := by
    rintro ⟨g, hg, h⟩
    simp only [List.mem_cons, List.mem_singleton, List.not_mem_nil, or_false] at hg
    rcases hg with rfl | rfl
    · rcases h with h | ⟨_, h⟩ <;> exact h rfl
    · rcases h with h | ⟨h1, h2⟩
      · exact h hp.symm
      · exact h2 (hd h1 (hp ▸ h1)).symm
  have key : ∀ (fn : String) (cpuFn cudaFn : Graph → Graph → Except Exn Graph),
      ¬ raisesDeviceMismatch fn (DISPATCH2 fn cpuFn cudaFn g1 g2) ∧
      (DISPATCH2 fn cpuFn cudaFn g1 g2).result =
        (if g1.isCuda then cudaFn g1 g2 else cpuFn g1 g2) ∧
      backendCalls (DISPATCH2 fn cpuFn cudaFn g1 g2).trace =
        [.backendCall (if g1.isCuda then .cuda else .cpu) fn [g1, g2] .none] := by
    intro fn cpuFn cudaFn
    exact ⟨fun hr => hno ((DISPATCH2_raises_iff fn cpuFn cudaFn g1 g2).1 hr),
      DISPATCH2_pass fn cpuFn cudaFn g1 g2 hno⟩
  exact ⟨key "add" _ _, key "subtract" _ _⟩

/-- C4 at two host-resident graphs with different device ids (0 and 5): `add`
returns the result of `cpu::add`; and at two CUDA graphs on device 3:
`subtract` returns the result of `cuda::subtract`. -/
theorem C4_add_subtract_dispatch_witness :
    ((⟨false, 0, 0⟩ : Graph).isCuda = (⟨false, 5, 1⟩ : Graph).isCuda ∧
      (⟨false, 0, 0⟩ : Graph).device ≠ (⟨false, 5, 1⟩ : Graph).device) ∧
    ((add (stubBackend 7) (stubBackend 8) ⟨false, 0, 0⟩ ⟨false, 5, 1⟩).result =
        .ok ⟨false, 0, 7⟩ ∧
      backendCalls (add (stubBackend 7) (stubBackend 8) ⟨false, 0, 0⟩ ⟨false, 5, 1⟩).trace =
        [.backendCall .cpu "add" [⟨false, 0, 0⟩, ⟨false, 5, 1⟩] .none]) ∧
    ((subtract (stubBackend 7) (stubBackend 8) ⟨true, 3, 0⟩ ⟨true, 3, 1⟩).result =
        .ok ⟨false, 0, 8⟩ ∧
      backendCalls (subtract (stubBackend 7) (stubBackend 8) ⟨true, 3, 0⟩ ⟨true, 3, 1⟩).trace =
        [.backendCall .cuda "subtract" [⟨true, 3, 0⟩, ⟨true, 3, 1⟩] .none]) :=
  ⟨⟨rfl, by decide⟩,
    (C4_add_subtract_dispatch (stubBackend 7) (stubBackend 8) ⟨false, 0, 0⟩ ⟨false, 5, 1⟩
      rfl (by decide)).1.2,
    (C4_add_subtract_dispatch (stubBackend 7) (stubBackend 8) ⟨true, 3, 0⟩ ⟨true, 3, 1⟩
      rfl (by decide)).2.2⟩

theorem mem_backendCalls (e : Event) (tr : List Event) :
    e ∈ backendCalls tr ↔ e ∈ tr ∧ e.isBackendCall = true := by
  simp [backendCalls, List.mem_filter]

/-- When no element differs from `g0`, every element has the placement of `g0`
and, if that is CUDA, its device id. -/
theorem agree_of_not_differs (g0 : Graph) (gs : List Graph)
    (h : ¬ ∃ g ∈ gs, differsFrom g0 g) :
    ∀ g ∈ gs, g.isCuda = g0.isCuda ∧ (g0.isCuda = true → g.device = g0.device) := by
  intro g hg
  by_contra hc
  apply h
  refine ⟨g, hg, ?_⟩
  unfold differsFrom
  by_cases h1 : g.isCuda = g0.isCuda
  · right
    by_contra h2
    exact hc ⟨h1, fun h3 => by_contra (fun h4 => h2 ⟨h3, h4⟩)⟩
  · exact Or.inl h1

/-- The invariant follows from what the backend invocations of an outcome are. -/
theorem homogeneousCalls_of_pass (g0 : Graph) (rest : List Graph) (fn : String)
    (o : Outcome Graph) (h : ¬ ∃ g ∈ g0 :: rest, differsFrom g0 g)
    (ho : backendCalls o.trace =
      [.backendCall (if g0.isCuda then .cuda else .cpu) fn (g0 :: rest) .none]) :
    homogeneousCalls (g0 :: rest) o := by
  intro ns fn2 gs extra he
  have hm : Event.backendCall ns fn2 gs extra ∈ backendCalls o.trace :=
    (mem_backendCalls _ _).2 ⟨he, rfl⟩
  rw [ho, List.mem_singleton] at hm
  injection hm with hns _ hgs _
  subst hgs
  have hall := agree_of_not_differs g0 (g0 :: rest) h
  refine ⟨rfl, ?_, ?_⟩
  · intro hc
    have hb : g0.isCuda = true := by
      cases hb : g0.isCuda
      · rw [hb] at hns; simp at hns; rw [hns] at hc; cases hc
      · rfl
    intro a ha
    refine ⟨by rw [(hall a ha).1, hb], fun b hb2 => ?_⟩
    rw [(hall a ha).2 hb, (hall b hb2).2 hb]
  · intro hc
    have hb : g0.isCuda = false := by
      cases hb : g0.isCuda
      · rfl
      · rw [hb] at hns; simp at hns; rw [hns] at hc; cases hc
    intro a ha
    rw [(hall a ha).1, hb]

theorem homogeneousCalls_of_none (args : List Graph) (o : Outcome Graph)
    (ho : backendCalls o.trace = []) : homogeneousCalls args o := by
  intro ns fn2 gs extra he
  have hm : Event.backendCall ns fn2 gs extra ∈ backendCalls o.trace :=
    (mem_backendCalls _ _).2 ⟨he, rfl⟩
  rw [ho] at hm
  cases hm

theorem DISPATCH2_homogeneous (fn : String) (cpuFn cudaFn : Graph → Graph → Except Exn Graph)
    (g1 g2 : Graph) : homogeneousCalls [g1, g2] (DISPATCH2 fn cpuFn cudaFn g1 g2) := by
  by_cases h : ∃ g ∈ [g1, g2], differsFrom g1 g
  · exact homogeneousCalls_of_none _ _ (DISPATCH2_mismatch fn cpuFn cudaFn g1 g2 h).2
  · exact homogeneousCalls_of_pass g1 [g2] fn _ h (DISPATCH2_pass fn cpuFn cudaFn g1 g2 h).2

theorem DISPATCHV_nil (fn : String) (cpuFn cudaFn : List Graph → Except Exn Graph) :
    DISPATCHV fn cpuFn cudaFn [] = ⟨cpuFn [], [.backendCall .cpu fn [] .none]⟩ := rfl

theorem DISPATCHV_homogeneous (fn : String) (cpuFn cudaFn : List Graph → Except Exn Graph)
    (graphs : List Graph) : homogeneousCalls graphs (DISPATCHV fn cpuFn cudaFn graphs) := by
  cases graphs with
  | nil =>
    rw [DISPATCHV_nil]
    intro ns fn2 gs extra he
    simp only [List.mem_singleton] at he
    injection he with hns _ hgs _
    subst hgs
    exact ⟨rfl, fun _ a ha => absurd ha (List.not_mem_nil a),
      fun _ a ha => absurd ha (List.not_mem_nil a)⟩
  | cons g0 rest =>
    by_cases h : ∃ g ∈ g0 :: rest, differsFrom g0 g
    · exact homogeneousCalls_of_none _ _
        ((DISPATCHV_raises_iff fn cpuFn cudaFn g0 rest).2 h).2
    · exact homogeneousCalls_of_pass g0 rest fn _ h (DISPATCHV_pass fn cpuFn cudaFn g0 rest h).2

/-- C5: at every backend invocation made by a binary-shaped or variadic
operation the device homogeneity invariant holds for the operation's
arguments: the invocation receives exactly those arguments; if it is a `cuda::`
invocation every argument is CUDA-resident and all have the same device id; if
it is a `cpu::` invocation every argument is host-resident. -/
theorem C5_backend_invocation_homogeneous (cpu cuda : Backend) (g1 g2 : Graph)
    (graphs : List Graph) :
    homogeneousCalls [g1, g2] (add cpu cuda g1 g2) ∧
    homogeneousCalls [g1, g2] (subtract cpu cuda g1 g2) ∧
    homogeneousCalls [g1, g2] (intersect cpu cuda g1 g2) ∧
    homogeneousCalls [g1, g2] (compose cpu cuda g1 g2) ∧
    homogeneousCalls [g1, g2] (concat2 cpu cuda g1 g2) ∧
    homogeneousCalls graphs (concat cpu cuda graphs) ∧
    homogeneousCalls graphs (union_ cpu cuda graphs) :=
  ⟨DISPATCH2_homogeneous _ _ _ _ _, DISPATCH2_homogeneous _ _ _ _ _,
    DISPATCH2_homogeneous _ _ _ _ _, DISPATCH2_homogeneous _ _ _ _ _,
    DISPATCHV_homogeneous _ _ _ _, DISPATCHV_homogeneous _ _ _ _,
    DISPATCHV_homogeneous _ _ _ _⟩

/-- C5 at a concrete call: `add` on two CUDA graphs of device 3 invokes
`cuda::add`, and there both arguments are CUDA-resident on one device. -/
theorem C5_backend_invocation_homogeneous_witness :
    Event.backendCall .cuda "add" [⟨true, 3, 0⟩, ⟨true, 3, 1⟩] .none ∈
        (add (stubBackend 7) (stubBackend 8) ⟨true, 3, 0⟩ ⟨true, 3, 1⟩).trace ∧
    ∀ a ∈ ([⟨true, 3, 0⟩, ⟨true, 3, 1⟩] : List Graph),
      a.isCuda = true ∧ ∀ b ∈ ([⟨true, 3, 0⟩, ⟨true, 3, 1⟩] : List Graph), a.device = b.device :=
  ⟨by decide,
    ((C5_backend_invocation_homogeneous (stubBackend 7) (stubBackend 8)
      ⟨true, 3, 0⟩ ⟨true, 3, 1⟩ []).1 .cuda "add" _ .none (by decide)).2.1 rfl⟩

/-- C6: `concat(g1, g2)` and `concat([g1, g2])` have the same outcome: the same
result (value or error, with the same message) and the same trace of device
checks and backend invocations. -/
theorem C6_concat2_eq_concat (cpu cuda : Backend) (g1 g2 : Graph) :
    concat2 cpu cuda g1 g2 = concat cpu cuda [g1, g2] := rfl

/-- C7: on the empty sequence `concat` and `union_` do nothing but invoke the
CPU backend on the empty sequence and return its result: no device-mismatch
error is raised, no device check is run, no `cuda::` function is invoked. -/
theorem C7_empty_variadic_goes_to_cpu (cpu cuda : Backend) :
    (concat cpu cuda [] = ⟨cpu.concat [], [.backendCall .cpu "concat" [] .none]⟩ ∧
      ¬ raisesDeviceMismatch "concat" (concat cpu cuda []) ∧
      deviceChecks (concat cpu cuda []).trace = [] ∧
      ∀ fn gs extra, Event.backendCall .cuda fn gs extra ∉ (concat cpu cuda []).trace) ∧
    (union_ cpu cuda [] = ⟨cpu.union_ [], [.backendCall .cpu "union_" [] .none]⟩ ∧
      ¬ raisesDeviceMismatch "union_" (union_ cpu cuda []) ∧
      deviceChecks (union_ cpu cuda []).trace = [] ∧
      ∀ fn gs extra, Event.backendCall .cuda fn gs extra ∉ (union_ cpu cuda []).trace) := by
  have key : ∀ (fn : String) (cpuFn cudaFn : List Graph → Except Exn Graph),
      DISPATCHV fn cpuFn cudaFn [] = ⟨cpuFn [], [.backendCall .cpu fn [] .none]⟩ ∧
      ¬ raisesDeviceMismatch fn (DISPATCHV fn cpuFn cudaFn []) ∧
      deviceChecks (DISPATCHV fn cpuFn cudaFn []).trace = [] ∧
      ∀ fn2 gs extra, Event.backendCall .cuda fn2 gs extra ∉ (DISPATCHV fn cpuFn cudaFn []).trace := by
    intro fn cpuFn cudaFn
    rw [DISPATCHV_nil]
    refine ⟨rfl, ?_, rfl, ?_⟩
    · rintro ⟨-, h⟩
      simp [backendCalls, Event.isBackendCall] at h
    · intro fn2 gs extra h
      simp at h
  exact ⟨key "concat" _ _, key "union_" _ _⟩

/-- C8: when the non-empty sequence `g0 :: rest` passes the device check,
`concat` and `union_` return exactly the result of `cuda::fn` on the whole
sequence when `g0` is CUDA-resident and of `cpu::fn` otherwise, and that one
backend invocation receives the sequence unchanged. -/
theorem C8_variadic_dispatch_on_first (cpu cuda : Backend) (g0 : Graph) (rest : List Graph)
    (name : String) (hpass : (deviceCheck (g0 :: rest) name).result = .ok ()) :
    ((concat cpu cuda (g0 :: rest)).result =
        (if g0.isCuda then cuda.concat (g0 :: rest) else cpu.concat (g0 :: rest)) ∧
      backendCalls (concat cpu cuda (g0 :: rest)).trace =
        [.backendCall (if g0.isCuda then .cuda else .cpu) "concat" (g0 :: rest) .none]) ∧
    ((union_ cpu cuda (g0 :: rest)).result =
        (if g0.isCuda then cuda.union_ (g0 :: rest) else cpu.union_ (g0 :: rest)) ∧
      backendCalls (union_ cpu cuda (g0 :: rest)).trace =
        [.backendCall (if g0.isCuda then .cuda else .cpu) "union_" (g0 :: rest) .none]) := by
  have hno : ¬ ∃ g ∈ g0 :: rest, differsFrom g0 g := by
    intro h
    rw [deviceCheck_result, if_pos h] at hpass
    cases hpass
  exact ⟨DISPATCHV_pass _ _ _ g0 rest hno, DISPATCHV_pass _ _ _ g0 rest hno⟩

/-- C8 at three CUDA graphs on device 1 (`cuda::concat` receives all three, in
order) and at two host graphs (`cpu::union_`). -/
theorem C8_variadic_dispatch_on_first_witness :
    ((deviceCheck [⟨true, 1, 0⟩, ⟨true, 1, 1⟩, ⟨true, 1, 2⟩] "concat").result = .ok () ∧
      (concat (stubBackend 7) (stubBackend 8) [⟨true, 1, 0⟩, ⟨true, 1, 1⟩, ⟨true, 1, 2⟩]).result =
        .ok ⟨false, 0, 8⟩ ∧
      backendCalls
          (concat (stubBackend 7) (stubBackend 8) [⟨true, 1, 0⟩, ⟨true, 1, 1⟩, ⟨true, 1, 2⟩]).trace =
        [.backendCall .cuda "concat" [⟨true, 1, 0⟩, ⟨true, 1, 1⟩, ⟨true, 1, 2⟩] .none]) ∧
    ((deviceCheck [⟨false, 0, 0⟩, ⟨false, 4, 1⟩] "union_").result = .ok () ∧
      (union_ (stubBackend 7) (stubBackend 8) [⟨false, 0, 0⟩, ⟨false, 4, 1⟩]).result =
        .ok ⟨false, 0, 7⟩) :=
  ⟨⟨rfl, (C8_variadic_dispatch_on_first (stubBackend 7) (stubBackend 8) ⟨true, 1, 0⟩
      [⟨true, 1, 1⟩, ⟨true, 1, 2⟩] "concat" rfl).1⟩,
    ⟨rfl, (C8_variadic_dispatch_on_first (stubBackend 7) (stubBackend 8) ⟨false, 0, 0⟩
      [⟨false, 4, 1⟩] "union_" rfl).2.1⟩⟩

/-- C9: on a sequence containing a device mismatch (two elements that disagree
on `isCuda`, or are both CUDA-resident with different device ids) `union_` ends
with the invalid-argument error whose message is
"[union_] Graphs must be on the same device" and `concat` with
"[concat] Graphs must be on the same device"; no backend function is invoked. -/
theorem C9_variadic_mismatch_names_operation (cpu cuda : Backend) (graphs : List Graph)
    (h : ∃ a ∈ graphs, ∃ b ∈ graphs, onDifferentDevices a b) :
    ((union_ cpu cuda graphs).result =
        .error (.invalid_argument "[union_] Graphs must be on the same device") ∧
      backendCalls (union_ cpu cuda graphs).trace = []) ∧
    ((concat cpu cuda graphs).result =
        .error (.invalid_argument "[concat] Graphs must be on the same device") ∧
      backendCalls (concat cpu cuda graphs).trace = []) := by
  cases graphs with
  | nil =>
    obtain ⟨a, ha, -⟩ := h
    exact absurd ha (List.not_mem_nil a)
  | cons g0 rest =>
    have hd := (differsFrom_head_iff_pair g0 rest).2 h
    exact ⟨(DISPATCHV_raises_iff "union_" _ _ g0 rest).2 hd,
      (DISPATCHV_raises_iff "concat" _ _ g0 rest).2 hd⟩

/-- C9 at three graphs, two host-resident and one CUDA-resident, with the CUDA
graph in first, second and third position. -/
theorem C9_variadic_mismatch_names_operation_witness :
    (∃ a ∈ ([⟨true, 0, 0⟩, ⟨false, 0, 1⟩, ⟨false, 0, 2⟩] : List Graph),
      ∃ b ∈ ([⟨true, 0, 0⟩, ⟨false, 0, 1⟩, ⟨false, 0, 2⟩] : List Graph),
        onDifferentDevices a b) ∧
    ((union_ (stubBackend 7) (stubBackend 8)
          [⟨true, 0, 0⟩, ⟨false, 0, 1⟩, ⟨false, 0, 2⟩]).result =
        .error (.invalid_argument "[union_] Graphs must be on the same device") ∧
      backendCalls (union_ (stubBackend 7) (stubBackend 8)
          [⟨true, 0, 0⟩, ⟨false, 0, 1⟩, ⟨false, 0, 2⟩]).trace = []) ∧
    ((union_ (stubBackend 7) (stubBackend 8)
          [⟨false, 0, 0⟩, ⟨true, 0, 1⟩, ⟨false, 0, 2⟩]).result =
        .error (.invalid_argument "[union_] Graphs must be on the same device") ∧
      backendCalls (union_ (stubBackend 7) (stubBackend 8)
          [⟨false, 0, 0⟩, ⟨true, 0, 1⟩, ⟨false, 0, 2⟩]).trace = []) ∧
    ((union_ (stubBackend 7) (stubBackend 8)
          [⟨false, 0, 0⟩, ⟨false, 0, 1⟩, ⟨true, 0, 2⟩]).result =
        .error (.invalid_argument "[union_] Graphs must be on the same device") ∧
      backendCalls (union_ (stubBackend 7) (stubBackend 8)
          [⟨false, 0, 0⟩, ⟨false, 0, 1⟩, ⟨true, 0, 2⟩]).trace = []) :=
  ⟨by decide,
    (C9_variadic_mismatch_names_operation (stubBackend 7) (stubBackend 8)
      [⟨true, 0, 0⟩, ⟨false, 0, 1⟩, ⟨false, 0, 2⟩] (by decide)).1,
    (C9_variadic_mismatch_names_operation (stubBackend 7) (stubBackend 8)
      [⟨false, 0, 0⟩, ⟨true, 0, 1⟩, ⟨false, 0, 2⟩] (by decide)).1,
    (C9_variadic_mismatch_names_operation (stubBackend 7) (stubBackend 8)
      [⟨false, 0, 0⟩, ⟨false, 0, 1⟩, ⟨true, 0, 2⟩] (by decide)).1⟩

/-- C10: when `g1` and `g2` are both CUDA-resident with different device ids,
`compose` ends with the invalid-argument error whose message is
"[compose] Graphs must be on the same device", and `add`, `subtract` and
`intersect` with the same message under their own names; no backend function is
invoked. -/
theorem C10_cuda_device_ids_differ (cpu cuda : Backend) (g1 g2 : Graph)
    (h1 : g1.isCuda = true) (_h2 : g2.isCuda = true) (hd : g1.device ≠ g2.device) :
    ((compose cpu cuda g1 g2).result =
        .error (.invalid_argument "[compose] Graphs must be on the same device") ∧
      backendCalls (compose cpu cuda g1 g2).trace = []) ∧
    ((add cpu cuda g1 g2).result =
        .error (.invalid_argument "[add] Graphs must be on the same device") ∧
      backendCalls (add cpu cuda g1 g2).trace = []) ∧
    ((subtract cpu cuda g1 g2).result =
        .error (.invalid_argument "[subtract] Graphs must be on the same device") ∧
      backendCalls (subtract cpu cuda g1 g2).trace = []) ∧
    ((intersect cpu cuda g1 g2).result =
        .error (.invalid_argument "[intersect] Graphs must be on the same device") ∧
      backendCalls (intersect cpu cuda g1 g2).trace = []) := by
  have hdiff : ∃ g ∈ [g1, g2], differsFrom g1 g :=
    ⟨g2, by simp, Or.inr ⟨h1, fun e => hd e.symm⟩⟩
  exact ⟨DISPATCH2_mismatch "compose" _ _ g1 g2 hdiff, DISPATCH2_mismatch "add" _ _ g1 g2 hdiff,
    DISPATCH2_mismatch "subtract" _ _ g1 g2 hdiff, DISPATCH2_mismatch "intersect" _ _ g1 g2 hdiff⟩

/-- C10 at two CUDA graphs on devices 0 and 1. -/
theorem C10_cuda_device_ids_differ_witness :
    ((⟨true, 0, 0⟩ : Graph).isCuda = true ∧ (⟨true, 1, 1⟩ : Graph).isCuda = true ∧
      (⟨true, 0, 0⟩ : Graph).device ≠ (⟨true, 1, 1⟩ : Graph).device) ∧
    (compose (stubBackend 7) (stubBackend 8) ⟨true, 0, 0⟩ ⟨true, 1, 1⟩).result =
      .error (.invalid_argument "[compose] Graphs must be on the same device") ∧
    backendCalls (compose (stubBackend 7) (stubBackend 8) ⟨true, 0, 0⟩ ⟨true, 1, 1⟩).trace = [] :=
  ⟨⟨rfl, rfl, by decide⟩,
    (C10_cuda_device_ids_differ (stubBackend 7) (stubBackend 8) ⟨true, 0, 0⟩ ⟨true, 1, 1⟩
      rfl rfl (by decide)).1⟩

/-- What `DISPATCH1(fn)` does: one invocation of the backend chosen by
`g.isCuda()`, whose result is returned. -/
theorem DISPATCH1_eq (fn : String) (cpuFn cudaFn : Graph → Except Exn Graph) (g : Graph) :
    DISPATCH1 fn cpuFn cudaFn g =
      ⟨if g.isCuda then cudaFn g else cpuFn g,
        [.backendCall (if g.isCuda then .cuda else .cpu) fn [g] .none]⟩ := by
  cases hb : g.isCuda <;> simp [DISPATCH1, invoke, hb]

theorem clone_eq (cpu cuda : Backend) (g : Graph) (p : Projection) :
    clone cpu cuda g p =
      ⟨if g.isCuda then cuda.clone g p else cpu.clone g p,
        [.backendCall (if g.isCuda then .cuda else .cpu) "clone" [g] (.projection p)]⟩ := by
  cases hb : g.isCuda <;> simp [clone, invoke, hb]

theorem remove_eq (cpu cuda : Backend) (g : Graph) (ilabel olabel : Int) :
    remove cpu cuda g ilabel olabel =
      ⟨if g.isCuda then cuda.remove g ilabel olabel else cpu.remove g ilabel olabel,
        [.backendCall (if g.isCuda then .cuda else .cpu) "remove" [g]
          (.labels ilabel olabel)]⟩ := by
  cases hb : g.isCuda <;> simp [remove, invoke, hb]

/-- C11: each unary-shaped operation (`negate`, `closure`, `forwardScore`,
`viterbiScore`, `viterbiPath`) on a graph `g` performs exactly one event, the
invocation of `cuda::fn(g)` when `g.isCuda()` and of `cpu::fn(g)` otherwise,
whatever the device id, and its result is that backend's result; it runs no
device check and never raises the device-mismatch error. -/
theorem C11_unary_dispatch (cpu cuda : Backend) (g : Graph) :
    (negate cpu cuda g =
        ⟨if g.isCuda then cuda.negate g else cpu.negate g,
          [.backendCall (if g.isCuda then .cuda else .cpu) "negate" [g] .none]⟩ ∧
      ¬ raisesDeviceMismatch "negate" (negate cpu cuda g)) ∧
    (closure cpu cuda g =
        ⟨if g.isCuda then cuda.closure g else cpu.closure g,
          [.backendCall (if g.isCuda then .cuda else .cpu) "closure" [g] .none]⟩ ∧
      ¬ raisesDeviceMismatch "closure" (closure cpu cuda g)) ∧
    (forwardScore cpu cuda g =
        ⟨if g.isCuda then cuda.forwardScore g else cpu.forwardScore g,
          [.backendCall (if g.isCuda then .cuda else .cpu) "forwardScore" [g] .none]⟩ ∧
      ¬ raisesDeviceMismatch "forwardScore" (forwardScore cpu cuda g)) ∧
    (viterbiScore cpu cuda g =
        ⟨if g.isCuda then cuda.viterbiScore g else cpu.viterbiScore g,
          [.backendCall (if g.isCuda then .cuda else .cpu) "viterbiScore" [g] .none]⟩ ∧
      ¬ raisesDeviceMismatch "viterbiScore" (viterbiScore cpu cuda g)) ∧
    (viterbiPath cpu cuda g =
        ⟨if g.isCuda then cuda.viterbiPath g else cpu.viterbiPath g,
          [.backendCall (if g.isCuda then .cuda else .cpu) "viterbiPath" [g] .none]⟩ ∧
      ¬ raisesDeviceMismatch "viterbiPath" (viterbiPath cpu cuda g)) := by
  have key : ∀ (fn : String) (cpuFn cudaFn : Graph → Except Exn Graph),
      DISPATCH1 fn cpuFn cudaFn g =
        ⟨if g.isCuda then cudaFn g else cpuFn g,
          [.backendCall (if g.isCuda then .cuda else .cpu) fn [g] .none]⟩ ∧
      ¬ raisesDeviceMismatch fn (DISPATCH1 fn cpuFn cudaFn g) := by
    intro fn cpuFn cudaFn
    refine ⟨DISPATCH1_eq fn cpuFn cudaFn g, ?_⟩
    rw [DISPATCH1_eq]
    rintro ⟨-, h⟩
    simp [backendCalls, Event.isBackendCall] at h
  exact ⟨key "negate" _ _, key "closure" _ _, key "forwardScore" _ _, key "viterbiScore" _ _,
    key "viterbiPath" _ _⟩

/-- C12: `projectInput(g)` is `clone(g, Projection::INPUT)` and
`projectOutput(g)` is `clone(g, Projection::OUTPUT)`; `clone(g, p)` performs
exactly one event, the invocation of `cuda::clone(g, p)` when `g.isCuda()` and
of `cpu::clone(g, p)` otherwise, returns its result, and runs no device check. -/
theorem C12_clone_and_projections (cpu cuda : Backend) (g : Graph) (p : Projection) :
    projectInput cpu cuda g = clone cpu cuda g Projection.INPUT ∧
    projectOutput cpu cuda g = clone cpu cuda g Projection.OUTPUT ∧
    clone cpu cuda g p =
      ⟨if g.isCuda then cuda.clone g p else cpu.clone g p,
        [.backendCall (if g.isCuda then .cuda else .cpu) "clone" [g] (.projection p)]⟩ ∧
    deviceChecks (clone cpu cuda g p).trace = [] := by
  refine ⟨rfl, rfl, clone_eq cpu cuda g p, ?_⟩
  rw [clone_eq]
  simp [deviceChecks, Event.isDeviceCheck]

/-- C13: `remove(g, L)` is `remove(g, L, L)`; `remove(g, i, o)` performs exactly
one event, the invocation of `cuda::remove(g, i, o)` when `g.isCuda()` and of
`cpu::remove(g, i, o)` otherwise, with both labels in the same order, and
returns its result. -/
theorem C13_remove_single_label (cpu cuda : Backend) (g : Graph) (label ilabel olabel : Int) :
    remove1 cpu cuda g label = remove cpu cuda g label label ∧
    remove cpu cuda g ilabel olabel =
      ⟨if g.isCuda then cuda.remove g ilabel olabel else cpu.remove g ilabel olabel,
        [.backendCall (if g.isCuda then .cuda else .cpu) "remove" [g]
          (.labels ilabel olabel)]⟩ :=
  ⟨rfl, remove_eq cpu cuda g ilabel olabel⟩

/-- C14: the two-argument `deviceCheck(g1, g2, name)` has the outcome of the
N-argument `deviceCheck` on the two-element sequence `[g1, g2]`, the same
result after the same events; both fail, with the message naming `name`,
exactly when `g1` and `g2` are on different devices, and return normally
otherwise. -/
theorem C14_deviceCheck2_eq_deviceCheck (g1 g2 : Graph) (name : String) :
    deviceCheck2 g1 g2 name = deviceCheck [g1, g2] name ∧
    (deviceCheck2 g1 g2 name).result =
      (if onDifferentDevices g1 g2 then
        .error (.invalid_argument ("[" ++ name ++ "] Graphs must be on the same device"))
      else .ok ()) ∧
    (deviceCheck [g1, g2] name).result =
      (if onDifferentDevices g1 g2 then
        .error (.invalid_argument ("[" ++ name ++ "] Graphs must be on the same device"))
      else .ok ()) := by
  have h : (deviceCheck [g1, g2] name).result =
      (if onDifferentDevices g1 g2 then .error (deviceMismatch name) else .ok ()) := by
    rw [deviceCheck_result]
    have hiff : (∃ g ∈ [g1, g2], differsFrom g1 g) ↔ onDifferentDevices g1 g2 := by
      rw [differsFrom_head_iff_pair]
      constructor
      · rintro ⟨a, ha, b, hb, hab⟩
        simp only [List.mem_cons, List.mem_singleton, List.not_mem_nil, or_false] at ha hb
        rcases ha with rfl | rfl <;> rcases hb with rfl | rfl
        · rcases hab with h | ⟨_, _, h⟩ <;> exact absurd rfl h
        · exact hab
        · rcases hab with h | ⟨h1, h2, h3⟩
          · exact Or.inl (fun e => h e.symm)
          · exact Or.inr ⟨h2, h1, fun e => h3 e.symm⟩
        · rcases hab with h | ⟨_, _, h⟩ <;> exact absurd rfl h
      · intro h
        exact ⟨g1, by simp, g2, by simp, h⟩
    by_cases hc : onDifferentDevices g1 g2
    · rw [if_pos hc, if_pos (hiff.2 hc)]
    · rw [if_neg hc, if_neg (fun hx => hc (hiff.1 hx))]
  exact ⟨rfl, h, h⟩

theorem deviceCheck_event_mem (g0 : Graph) (rest : List Graph) (name : String)
    (gs : List Graph) (nm : String) :
    Event.deviceCheck gs nm ∈ (deviceCheck (g0 :: rest) name).trace ↔
      gs = g0 :: rest ∧ nm = name := by
  obtain ⟨reads, h1, h2⟩ := deviceCheck_trace g0 rest name
  rw [h1, List.mem_cons]
  constructor
  · rintro (h | h)
    · injection h with ha hb
      exact ⟨ha, hb⟩
    · obtain ⟨g, -, hg, -⟩ := h2 _ h
      cases hg
  · rintro ⟨rfl, rfl⟩
    exact Or.inl rfl

theorem deviceRead_mem (g0 : Graph) (rest : List Graph) (name : String) (g : Graph)
    (h : Event.deviceRead g ∈ (deviceCheck (g0 :: rest) name).trace) : g.isCuda = true := by
  obtain ⟨reads, h1, h2⟩ := deviceCheck_trace g0 rest name
  rw [h1, List.mem_cons] at h
  rcases h with h | h
  · cases h
  · obtain ⟨g2, -, hg, hc⟩ := h2 _ h
    injection hg with hg
    rw [hg]; exact hc

/-- The two shapes a public operation takes: forward to the selected backend
function at once, or run the device check on the non-empty argument sequence and
forward only if no element differs from the first. -/
theorem Request.run_shape (cpu cuda : Backend) (r : Request) :
    (∃ extra, r.run cpu cuda =
        ⟨r.selected cpu cuda, [.backendCall r.selectedNamespace r.name r.graphs extra]⟩) ∨
    (∃ g0 rest, r.graphs = g0 :: rest ∧
      r.run cpu cuda =
        if ∃ g ∈ g0 :: rest, differsFrom g0 g then
          ⟨.error (deviceMismatch r.name), (deviceCheck (g0 :: rest) r.name).trace⟩
        else
          ⟨r.selected cpu cuda, (deviceCheck (g0 :: rest) r.name).trace ++
            [.backendCall r.selectedNamespace r.name r.graphs .none]⟩) := by
  have h1 : ∀ (fn : String) (cpuFn cudaFn : Graph → Except Exn Graph) (g : Graph),
      DISPATCH1 fn cpuFn cudaFn g =
        ⟨match (if g.isCuda then Namespace.cuda else Namespace.cpu) with
          | .cpu => cpuFn g
          | .cuda => cudaFn g,
          [.backendCall (if g.isCuda then .cuda else .cpu) fn [g] .none]⟩ := by
    intro fn cpuFn cudaFn g
    rw [DISPATCH1_eq]; cases g.isCuda <;> rfl
  have h2 : ∀ (fn : String) (cpuFn cudaFn : Graph → Graph → Except Exn Graph) (g1 g2 : Graph),
      DISPATCH2 fn cpuFn cudaFn g1 g2 =
        if ∃ g ∈ [g1, g2], differsFrom g1 g then
          ⟨.error (deviceMismatch fn), (deviceCheck [g1, g2] fn).trace⟩
        else
          ⟨match (if g1.isCuda then Namespace.cuda else Namespace.cpu) with
            | .cpu => cpuFn g1 g2
            | .cuda => cudaFn g1 g2,
            (deviceCheck [g1, g2] fn).trace ++
              [.backendCall (if g1.isCuda then .cuda else .cpu) fn [g1, g2] .none]⟩ := by
    intro fn cpuFn cudaFn g1 g2
    rw [DISPATCH2_eq]; cases g1.isCuda <;> rfl
  have hv : ∀ (fn : String) (cpuFn cudaFn : List Graph → Except Exn Graph) (g0 : Graph)
      (rest : List Graph),
      DISPATCHV fn cpuFn cudaFn (g0 :: rest) =
        if ∃ g ∈ g0 :: rest, differsFrom g0 g then
          ⟨.error (deviceMismatch fn), (deviceCheck (g0 :: rest) fn).trace⟩
        else
          ⟨match (if g0.isCuda then Namespace.cuda else Namespace.cpu) with
            | .cpu => cpuFn (g0 :: rest)
            | .cuda => cudaFn (g0 :: rest),
            (deviceCheck (g0 :: rest) fn).trace ++
              [.backendCall (if g0.isCuda then .cuda else .cpu) fn (g0 :: rest) .none]⟩ := by
    intro fn cpuFn cudaFn g0 rest
    rw [DISPATCHV_cons]; cases g0.isCuda <;> rfl
  cases r with
  | negate g => exact Or.inl ⟨.none, h1 _ _ _ g⟩
  | closure g => exact Or.inl ⟨.none, h1 _ _ _ g⟩
  | forwardScore g => exact Or.inl ⟨.none, h1 _ _ _ g⟩
  | viterbiScore g => exact Or.inl ⟨.none, h1 _ _ _ g⟩
  | viterbiPath g => exact Or.inl ⟨.none, h1 _ _ _ g⟩
  | clone g p =>
    refine Or.inl ⟨.projection p, ?_⟩
    exact (clone_eq cpu cuda g p).trans (by cases hb : g.isCuda <;> simp [Request.selected,
      Request.selectedNamespace, Request.graphs, Request.backendResult, Request.name, hb])
  | projectInput g =>
    refine Or.inl ⟨.projection .INPUT, ?_⟩
    exact (clone_eq cpu cuda g .INPUT).trans (by cases hb : g.isCuda <;> simp [Request.selected,
      Request.selectedNamespace, Request.graphs, Request.backendResult, Request.name, hb])
  | projectOutput g =>
    refine Or.inl ⟨.projection .OUTPUT, ?_⟩
    exact (clone_eq cpu cuda g .OUTPUT).trans (by cases hb : g.isCuda <;> simp [Request.selected,
      Request.selectedNamespace, Request.graphs, Request.backendResult, Request.name, hb])
  | remove1 g l =>
    refine Or.inl ⟨.labels l l, ?_⟩
    exact (remove_eq cpu cuda g l l).trans (by cases hb : g.isCuda <;> simp [Request.selected,
      Request.selectedNamespace, Request.graphs, Request.backendResult, Request.name, hb])
  | remove g i o =>
    refine Or.inl ⟨.labels i o, ?_⟩
    exact (remove_eq cpu cuda g i o).trans (by cases hb : g.isCuda <;> simp [Request.selected,
      Request.selectedNamespace, Request.graphs, Request.backendResult, Request.name, hb])
  | add g1 g2 => exact Or.inr ⟨g1, [g2], rfl, h2 _ _ _ g1 g2⟩
  | subtract g1 g2 => exact Or.inr ⟨g1, [g2], rfl, h2 _ _ _ g1 g2⟩
  | intersect g1 g2 => exact Or.inr ⟨g1, [g2], rfl, h2 _ _ _ g1 g2⟩
  | compose g1 g2 => exact Or.inr ⟨g1, [g2], rfl, h2 _ _ _ g1 g2⟩
  | concat2 g1 g2 => exact Or.inr ⟨g1, [g2], rfl, hv _ _ _ g1 [g2]⟩
  | concat graphs =>
    cases graphs with
    | nil => exact Or.inl ⟨.none, rfl⟩
    | cons g0 rest => exact Or.inr ⟨g0, rest, rfl, hv _ _ _ g0 rest⟩
  | union_ graphs =>
    cases graphs with
    | nil => exact Or.inl ⟨.none, rfl⟩
    | cons g0 rest => exact Or.inr ⟨g0, rest, rfl, hv _ _ _ g0 rest⟩

/-- What every public operation does, read off its two shapes: either the device
check (if any) passed and the outcome is the result of the one backend
invocation, or the check failed, nothing was invoked and the error is the
device mismatch naming the operation. -/
theorem Request.run_cases (cpu cuda : Backend) (r : Request) :
    ((r.run cpu cuda).result = r.selected cpu cuda ∧
      (∃ extra, backendCalls (r.run cpu cuda).trace =
        [.backendCall r.selectedNamespace r.name r.graphs extra]) ∧
      ∀ gs nm, Event.deviceCheck gs nm ∈ (r.run cpu cuda).trace →
        gs = r.graphs ∧ gs ≠ [] ∧ (deviceCheck gs nm).result = .ok ()) ∨
    (raisesDeviceMismatch r.name (r.run cpu cuda) ∧
      ∃ gs nm, Event.deviceCheck gs nm ∈ (r.run cpu cuda).trace ∧
        gs = r.graphs ∧ gs ≠ [] ∧ (deviceCheck gs nm).result = .error (deviceMismatch nm)) := by
  rcases Request.run_shape cpu cuda r with ⟨extra, h⟩ | ⟨g0, rest, hg, h⟩
  · left
    rw [h]
    refine ⟨rfl, ⟨extra, by simp [backendCalls, Event.isBackendCall]⟩, ?_⟩
    intro gs nm hmem
    simp at hmem
  · by_cases hd : ∃ g ∈ g0 :: rest, differsFrom g0 g
    · right
      rw [if_pos hd] at h
      rw [h]
      refine ⟨⟨rfl, deviceCheck_backendCalls g0 rest r.name⟩, g0 :: rest, r.name,
        (deviceCheck_event_mem g0 rest r.name _ _).2 ⟨rfl, rfl⟩, hg.symm, by simp, ?_⟩
      rw [deviceCheck_result, if_pos hd]
    · left
      rw [if_neg hd] at h
      rw [h]
      refine ⟨rfl, ⟨.none, backendCalls_check_append _ _ _ _ _ _ _⟩, ?_⟩
      intro gs nm hmem
      rw [List.mem_append] at hmem
      rcases hmem with hmem | hmem
      · obtain ⟨rfl, rfl⟩ := (deviceCheck_event_mem g0 rest r.name gs nm).1 hmem
        refine ⟨hg.symm, by simp, ?_⟩
        rw [deviceCheck_result, if_neg hd]
      · simp at hmem

/-- C15: for every public operation and every error `e`: if each device check
the operation runs passes (in particular if it runs none) and the selected
backend function fails with `e`, the operation fails with exactly `e`; the
operation either returns what the selected backend function returned or threw,
after invoking it once, or raises the device mismatch without invoking a
backend; and an error of an operation that invoked no backend function is the
device-mismatch invalid-argument error. -/
theorem C15_backend_errors_propagate (cpu cuda : Backend) (r : Request) (e : Exn) :
    ((∀ gs nm, Event.deviceCheck gs nm ∈ (r.run cpu cuda).trace →
        (deviceCheck gs nm).result = .ok ()) →
      r.selected cpu cuda = .error e → (r.run cpu cuda).result = .error e) ∧
    (((r.run cpu cuda).result = r.selected cpu cuda ∧
        ∃ extra, backendCalls (r.run cpu cuda).trace =
          [.backendCall r.selectedNamespace r.name r.graphs extra]) ∨
      raisesDeviceMismatch r.name (r.run cpu cuda)) ∧
    ((r.run cpu cuda).result = .error e → backendCalls (r.run cpu cuda).trace = [] →
      e = .invalid_argument ("[" ++ r.name ++ "] Graphs must be on the same device")) := by
  rcases Request.run_cases cpu cuda r with ⟨h1, ⟨extra, h2⟩, _⟩ | ⟨⟨h1, h2⟩, gs, nm, hm, _, _, hr⟩
  · refine ⟨fun _ hs => h1.trans hs, Or.inl ⟨h1, extra, h2⟩, fun _ hb => ?_⟩
    rw [h2] at hb
    cases hb
  · refine ⟨fun hpass _ => ?_, Or.inr ⟨h1, h2⟩, fun he _ => ?_⟩
    · rw [hpass gs nm hm] at hr
      cases hr
    · rw [h1] at he
      injection he with he
      exact he.symm

/-- C15 at `add` on two CUDA graphs of device 3 whose `cuda::add` throws, and at
`closure` on a host graph whose `cpu::closure` throws: the operation ends with
the backend's own error. -/
theorem C15_backend_errors_propagate_witness :
    (Request.selected (stubBackend 7) (failingBackend "bad topology")
        (.add ⟨true, 3, 0⟩ ⟨true, 3, 1⟩) = .error (.backendFailure "bad topology") ∧
      (Request.run (stubBackend 7) (failingBackend "bad topology")
        (.add ⟨true, 3, 0⟩ ⟨true, 3, 1⟩)).result = .error (.backendFailure "bad topology")) ∧
    (Request.selected (failingBackend "bad topology") (stubBackend 8)
        (.closure ⟨false, 0, 0⟩) = .error (.backendFailure "bad topology") ∧
      (Request.run (failingBackend "bad topology") (stubBackend 8)
        (.closure ⟨false, 0, 0⟩)).result = .error (.backendFailure "bad topology")) :=
  ⟨⟨rfl, (C15_backend_errors_propagate (stubBackend 7) (failingBackend "bad topology")
      (.add ⟨true, 3, 0⟩ ⟨true, 3, 1⟩) (.backendFailure "bad topology")).1
      (fun gs nm hm => by
        have ht : (Request.run (stubBackend 7) (failingBackend "bad topology")
            (.add ⟨true, 3, 0⟩ ⟨true, 3, 1⟩)).trace =
            [.deviceCheck [⟨true, 3, 0⟩, ⟨true, 3, 1⟩] "add", .deviceRead ⟨true, 3, 0⟩,
              .deviceRead ⟨true, 3, 0⟩, .deviceRead ⟨true, 3, 1⟩,
              .backendCall .cuda "add" [⟨true, 3, 0⟩, ⟨true, 3, 1⟩] .none] := rfl
        rw [ht] at hm
        simp only [List.mem_cons, Event.deviceCheck.injEq, List.mem_singleton, reduceCtorEq,
          List.not_mem_nil, or_false] at hm
        obtain ⟨rfl, rfl⟩ := hm
        rfl)
      rfl⟩,
    ⟨rfl, (C15_backend_errors_propagate (failingBackend "bad topology") (stubBackend 8)
      (.closure ⟨false, 0, 0⟩) (.backendFailure "bad topology")).1
      (fun gs nm hm => by
        have ht : (Request.run (failingBackend "bad topology") (stubBackend 8)
            (.closure ⟨false, 0, 0⟩)).trace =
            [.backendCall .cpu "closure" [⟨false, 0, 0⟩] .none] := rfl
        rw [ht] at hm
        simp at hm)
      rfl⟩⟩

/-- The result of the device check on a non-empty sequence, by pairs. -/
theorem deviceCheck_result_pair (graphs : List Graph) (name : String) (hne : graphs ≠ []) :
    (deviceCheck graphs name).result =
      if ∃ a ∈ graphs, ∃ b ∈ graphs, onDifferentDevices a b then .error (deviceMismatch name)
      else .ok () := by
  cases graphs with
  | nil => exact absurd rfl hne
  | cons g0 rest =>
    rw [deviceCheck_result]
    by_cases h : ∃ g ∈ g0 :: rest, differsFrom g0 g
    · rw [if_pos h, if_pos ((differsFrom_head_iff_pair g0 rest).1 h)]
    · rw [if_neg h, if_neg (fun hx => h ((differsFrom_head_iff_pair g0 rest).2 hx))]

/-- C16: the result of the N-argument `deviceCheck` on a non-empty sequence is
the same on every permutation of the sequence, so the check fails on the one
exactly when it fails on the other; and each binary-shaped operation raises the
device mismatch on `(g1, g2)` exactly when it does on `(g2, g1)`. -/
theorem C16_deviceCheck_order_independent (cpu cuda : Backend) (graphs permuted : List Graph)
    (name : String) (g1 g2 : Graph) (hne : graphs ≠ []) (hperm : graphs.Perm permuted) :
    (deviceCheck permuted name).result = (deviceCheck graphs name).result ∧
    ((deviceCheck permuted name).result =
        .error (.invalid_argument ("[" ++ name ++ "] Graphs must be on the same device")) ↔
      (deviceCheck graphs name).result =
        .error (.invalid_argument ("[" ++ name ++ "] Graphs must be on the same device"))) ∧
    (raisesDeviceMismatch "add" (add cpu cuda g1 g2) ↔
      raisesDeviceMismatch "add" (add cpu cuda g2 g1)) ∧
    (raisesDeviceMismatch "subtract" (subtract cpu cuda g1 g2) ↔
      raisesDeviceMismatch "subtract" (subtract cpu cuda g2 g1)) ∧
    (raisesDeviceMismatch "intersect" (intersect cpu cuda g1 g2) ↔
      raisesDeviceMismatch "intersect" (intersect cpu cuda g2 g1)) ∧
    (raisesDeviceMismatch "compose" (compose cpu cuda g1 g2) ↔
      raisesDeviceMismatch "compose" (compose cpu cuda g2 g1)) := by
  have hne2 : permuted ≠ [] := fun h => hne (List.Perm.eq_nil (h ▸ hperm))
  have hex : (∃ a ∈ permuted, ∃ b ∈ permuted, onDifferentDevices a b) ↔
      ∃ a ∈ graphs, ∃ b ∈ graphs, onDifferentDevices a b := by
    constructor
    · rintro ⟨a, ha, b, hb, h⟩
      exact ⟨a, hperm.mem_iff.2 ha, b, hperm.mem_iff.2 hb, h⟩
    · rintro ⟨a, ha, b, hb, h⟩
      exact ⟨a, hperm.mem_iff.1 ha, b, hperm.mem_iff.1 hb, h⟩
  have heq : (deviceCheck permuted name).result = (deviceCheck graphs name).result := by
    rw [deviceCheck_result_pair permuted name hne2, deviceCheck_result_pair graphs name hne]
    by_cases h : ∃ a ∈ graphs, ∃ b ∈ graphs, onDifferentDevices a b
    · rw [if_pos h, if_pos (hex.2 h)]
    · rw [if_neg h, if_neg (fun hx => h (hex.1 hx))]
  have hswap : (∃ g ∈ [g1, g2], differsFrom g1 g) ↔ ∃ g ∈ [g2, g1], differsFrom g2 g := by
    rw [differsFrom_head_iff_pair, differsFrom_head_iff_pair]
    constructor
    · rintro ⟨a, ha, b, hb, h⟩
      exact ⟨a, by simp at ha ⊢; tauto, b, by simp at hb ⊢; tauto, h⟩
    · rintro ⟨a, ha, b, hb, h⟩
      exact ⟨a, by simp at ha ⊢; tauto, b, by simp at hb ⊢; tauto, h⟩
  have key : ∀ (fn : String) (cpuFn cudaFn : Graph → Graph → Except Exn Graph),
      raisesDeviceMismatch fn (DISPATCH2 fn cpuFn cudaFn g1 g2) ↔
        raisesDeviceMismatch fn (DISPATCH2 fn cpuFn cudaFn g2 g1) := by
    intro fn cpuFn cudaFn
    rw [DISPATCH2_raises_iff, DISPATCH2_raises_iff]
    exact hswap
  exact ⟨heq, by rw [heq], key "add" _ _, key "subtract" _ _, key "intersect" _ _,
    key "compose" _ _⟩

/-- C16 at a sequence with the CUDA graph moved from the last to the first
position (the check fails on both) and at a swapped pair of host graphs with
different device ids (it passes on both). -/
theorem C16_deviceCheck_order_independent_witness :
    (([⟨false, 0, 0⟩, ⟨false, 0, 1⟩, ⟨true, 0, 2⟩] : List Graph) ≠ [] ∧
      ([⟨false, 0, 0⟩, ⟨false, 0, 1⟩, ⟨true, 0, 2⟩] : List Graph).Perm
        [⟨true, 0, 2⟩, ⟨false, 0, 0⟩, ⟨false, 0, 1⟩]) ∧
    (deviceCheck [⟨true, 0, 2⟩, ⟨false, 0, 0⟩, ⟨false, 0, 1⟩] "union_").result =
      (deviceCheck [⟨false, 0, 0⟩, ⟨false, 0, 1⟩, ⟨true, 0, 2⟩] "union_").result ∧
    (deviceCheck [⟨false, 4, 1⟩, ⟨false, 0, 0⟩] "add").result =
      (deviceCheck [⟨false, 0, 0⟩, ⟨false, 4, 1⟩] "add").result :=
  ⟨⟨by decide, by decide⟩,
    (C16_deviceCheck_order_independent (stubBackend 7) (stubBackend 8)
      [⟨false, 0, 0⟩, ⟨false, 0, 1⟩, ⟨true, 0, 2⟩] [⟨true, 0, 2⟩, ⟨false, 0, 0⟩, ⟨false, 0, 1⟩]
      "union_" ⟨false, 0, 0⟩ ⟨true, 0, 1⟩ (by decide) (by decide)).1,
    (C16_deviceCheck_order_independent (stubBackend 7) (stubBackend 8)
      [⟨false, 0, 0⟩, ⟨false, 4, 1⟩] [⟨false, 4, 1⟩, ⟨false, 0, 0⟩]
      "add" ⟨false, 0, 0⟩ ⟨true, 0, 1⟩ (by decide) (by decide)).1⟩

/-- On a non-empty sequence the device check ends with the mismatch error or
normally, never with a fault of the embedding. -/
theorem deviceCheck_result_cases (g0 : Graph) (rest : List Graph) (name : String) :
    (deviceCheck (g0 :: rest) name).result = .error (deviceMismatch name) ∨
      (deviceCheck (g0 :: rest) name).result = .ok () := by
  rw [deviceCheck_result]
  by_cases h : ∃ g ∈ g0 :: rest, differsFrom g0 g
  · exact Or.inl (if_pos h)
  · exact Or.inr (if_neg h)

/-- The accessor `device()` is only called on CUDA-resident elements of the
sequence. -/
theorem deviceRead_mem_graphs (graphs : List Graph) (name : String) (g : Graph)
    (h : Event.deviceRead g ∈ (deviceCheck graphs name).trace) :
    g ∈ graphs ∧ g.isCuda = true := by
  cases graphs with
  | nil =>
    have ht : (deviceCheck [] name).trace = [.deviceCheck [] name] := rfl
    rw [ht] at h
    simp at h
  | cons g0 rest =>
    obtain ⟨reads, h1, h2⟩ := deviceCheck_trace g0 rest name
    rw [h1, List.mem_cons] at h
    rcases h with h | h
    · cases h
    · obtain ⟨g2, hg2, hg, hc⟩ := h2 _ h
      injection hg with hg
      rw [hg]; exact ⟨hg2, hc⟩

/-- C17: on every path from a public operation the access `graphs[0]` is in
bounds: each device check an operation runs is on the operation's own argument
sequence, which is then non-empty (two elements for the binary operations and
`concat(g1, g2)`, the sequence that failed the emptiness test for the variadic
ones), so neither `graphs[0]` nor the check ends in the out-of-range branch; an
operation can end with that fault only by the invoked backend function
returning it.  The branch itself exists: the check on the empty sequence takes
it. -/
theorem C17_first_element_access_in_bounds (cpu cuda : Backend) (r : Request) :
    (∀ gs nm, Event.deviceCheck gs nm ∈ (r.run cpu cuda).trace →
      gs = r.graphs ∧ gs ≠ [] ∧ (at0 gs).result ≠ .error .indexOutOfRange ∧
        (deviceCheck gs nm).result ≠ .error .indexOutOfRange) ∧
    ((r.run cpu cuda).result = .error .indexOutOfRange →
      backendCalls (r.run cpu cuda).trace ≠ [] ∧
        r.selected cpu cuda = .error .indexOutOfRange) ∧
    (∀ name, (deviceCheck [] name).result = .error .indexOutOfRange) := by
  have hchk : ∀ gs nm, Event.deviceCheck gs nm ∈ (r.run cpu cuda).trace →
      gs = r.graphs ∧ gs ≠ [] := by
    intro gs nm hm
    rcases Request.run_shape cpu cuda r with ⟨extra, h⟩ | ⟨g0, rest, hgr, h⟩
    · rw [h] at hm
      simp at hm
    · have hin : Event.deviceCheck gs nm ∈ (deviceCheck (g0 :: rest) r.name).trace := by
        rw [h] at hm
        split at hm
        · exact hm
        · rw [List.mem_append] at hm
          rcases hm with hm | hm
          · exact hm
          · simp at hm
      obtain ⟨rfl, -⟩ := (deviceCheck_event_mem g0 rest r.name gs nm).1 hin
      exact ⟨hgr.symm, by simp⟩
  refine ⟨?_, ?_, fun _ => rfl⟩
  · intro gs nm hm
    obtain ⟨h1, h2⟩ := hchk gs nm hm
    refine ⟨h1, h2, ?_, ?_⟩
    · cases gs with
      | nil => exact absurd rfl h2
      | cons g0 rest => intro h; cases h
    · cases gs with
      | nil => exact absurd rfl h2
      | cons g0 rest =>
        intro h
        rcases deviceCheck_result_cases g0 rest nm with h3 | h3
        · rw [h3] at h; cases h
        · rw [h3] at h; cases h
  · intro he
    rcases Request.run_cases cpu cuda r with ⟨h1, ⟨extra, h2⟩, _⟩ | ⟨⟨h1, _⟩, _⟩
    · refine ⟨?_, h1.symm.trans he⟩
      rw [h2]; simp
    · rw [h1] at he
      cases he

/-- C17 at `union_` on two host graphs: the check it runs is on its own,
non-empty, argument sequence. -/
theorem C17_first_element_access_in_bounds_witness :
    Event.deviceCheck [⟨false, 0, 0⟩, ⟨false, 4, 1⟩] "union_" ∈
        (Request.run (stubBackend 7) (stubBackend 8)
          (.union_ [⟨false, 0, 0⟩, ⟨false, 4, 1⟩])).trace ∧
    ([⟨false, 0, 0⟩, ⟨false, 4, 1⟩] : List Graph) ≠ [] ∧
    (deviceCheck [⟨false, 0, 0⟩, ⟨false, 4, 1⟩] "union_").result ≠ .error .indexOutOfRange :=
  ⟨by decide,
    ((C17_first_element_access_in_bounds (stubBackend 7) (stubBackend 8)
      (.union_ [⟨false, 0, 0⟩, ⟨false, 4, 1⟩])).1 _ "union_" (by decide)).2.1,
    ((C17_first_element_access_in_bounds (stubBackend 7) (stubBackend 8)
      (.union_ [⟨false, 0, 0⟩, ⟨false, 4, 1⟩])).1 _ "union_" (by decide)).2.2.2⟩

/-- C18: the local `device` of `deviceCheck` is never read before it is
assigned: on no sequence does the check end in the uninitialised-read fault
(which a read of the unassigned local under `isCuda` would produce);
`device()` is called only on CUDA-resident elements of the sequence; and on a
non-empty sequence of host-resident graphs the check returns normally, whatever
the device ids, without any call of `device()`. -/
theorem C18_device_local_never_read_uninitialised (graphs : List Graph) (name : String) :
    (deviceCheck graphs name).result ≠ .error .uninitialisedRead ∧
    (∀ g, Event.deviceRead g ∈ (deviceCheck graphs name).trace →
      g ∈ graphs ∧ g.isCuda = true) ∧
    (graphs ≠ [] → (∀ g ∈ graphs, g.isCuda = false) →
      (deviceCheck graphs name).result = .ok () ∧
        ∀ g, Event.deviceRead g ∉ (deviceCheck graphs name).trace) ∧
    (∀ g, g.isCuda = true → (loopCond true none g).result = .error .uninitialisedRead) := by
  refine ⟨?_, deviceRead_mem_graphs graphs name, ?_, ?_⟩
  · cases graphs with
    | nil => intro h; cases h
    | cons g0 rest =>
      intro h
      rcases deviceCheck_result_cases g0 rest name with h3 | h3
      · rw [h3] at h; cases h
      · rw [h3] at h; cases h
  · intro hne hhost
    constructor
    · cases graphs with
      | nil => exact absurd rfl hne
      | cons g0 rest =>
        rw [deviceCheck_result, if_neg]
        rintro ⟨g, hg, h | ⟨h, -⟩⟩
        · exact h ((hhost g hg).trans (hhost g0 (List.mem_cons_self _ _)).symm)
        · rw [hhost g0 (List.mem_cons_self _ _)] at h
          cases h
    · intro g hg
      obtain ⟨h1, h2⟩ := deviceRead_mem_graphs graphs name g hg
      rw [hhost g h1] at h2
      cases h2
  · intro g hg
    simp [loopCond, hg, Outcome.bind_eq, Outcome.seq, readDevice, readLocal, raise]

/-- C18 at two host-resident graphs with device ids 0 and 7. -/
theorem C18_device_local_never_read_uninitialised_witness :
    (([⟨false, 0, 0⟩, ⟨false, 7, 1⟩] : List Graph) ≠ [] ∧
      ∀ g ∈ ([⟨false, 0, 0⟩, ⟨false, 7, 1⟩] : List Graph), g.isCuda = false) ∧
    (deviceCheck [⟨false, 0, 0⟩, ⟨false, 7, 1⟩] "add").result = .ok () :=
  ⟨⟨by decide, by decide⟩,
    ((C18_device_local_never_read_uninitialised [⟨false, 0, 0⟩, ⟨false, 7, 1⟩] "add").2.2.1
      (by decide) (by decide)).1⟩

/-- C19: on a single-element sequence `[g]` the device check returns normally;
`concat([g])` and `union_([g])` do not raise the device mismatch and return the
result of `cuda::fn([g])` when `g` is CUDA-resident and of `cpu::fn([g])`
otherwise, the one backend function invoked. -/
theorem C19_single_element_sequence (cpu cuda : Backend) (g : Graph) (name : String) :
    (deviceCheck [g] name).result = .ok () ∧
    (¬ raisesDeviceMismatch "concat" (concat cpu cuda [g]) ∧
      (concat cpu cuda [g]).result = (if g.isCuda then cuda.concat [g] else cpu.concat [g]) ∧
      backendCalls (concat cpu cuda [g]).trace =
        [.backendCall (if g.isCuda then .cuda else .cpu) "concat" [g] .none]) ∧
    (¬ raisesDeviceMismatch "union_" (union_ cpu cuda [g]) ∧
      (union_ cpu cuda [g]).result = (if g.isCuda then cuda.union_ [g] else cpu.union_ [g]) ∧
      backendCalls (union_ cpu cuda [g]).trace =
        [.backendCall (if g.isCuda then .cuda else .cpu) "union_" [g] .none]) := by
  have hno : ¬ ∃ g2 ∈ [g], differsFrom g g2 := by
    rintro ⟨g2, hg2, h⟩
    rw [List.mem_singleton] at hg2
    subst hg2
    rcases h with h | ⟨_, h⟩ <;> exact h rfl
  have key : ∀ (fn : String) (cpuFn cudaFn : List Graph → Except Exn Graph),
      ¬ raisesDeviceMismatch fn (DISPATCHV fn cpuFn cudaFn [g]) ∧
      (DISPATCHV fn cpuFn cudaFn [g]).result = (if g.isCuda then cudaFn [g] else cpuFn [g]) ∧
      backendCalls (DISPATCHV fn cpuFn cudaFn [g]).trace =
        [.backendCall (if g.isCuda then .cuda else .cpu) fn [g] .none] := by
    intro fn cpuFn cudaFn
    exact ⟨fun hr => hno ((DISPATCHV_raises_iff fn cpuFn cudaFn g []).1 hr),
      DISPATCHV_pass fn cpuFn cudaFn g [] hno⟩
  refine ⟨?_, key "concat" _ _, key "union_" _ _⟩
  rw [deviceCheck_result, if_neg hno]

end gtn
